import Mathlib

/-!
Verification development for the solis-sensor Ginlong portal integration.

The Python sources `custom_components/solis/ginlong_api.py` and
`custom_components/solis/service.py` are shallowly embedded below:
Python dicts become insertion-ordered association lists, Python floats
become rationals, fallible code returns `Except String`, and the
asynchronous update cycle becomes explicit state passing over a
`SvcState` record with portal responses supplied as explicit data.
-/

set_option maxHeartbeats 1000000

/-- Decidable equality for `Except`, used to evaluate the embedded
fallible operations on concrete inputs. -/
instance exceptDecEq {ε α : Type} [DecidableEq ε] [DecidableEq α] :
    DecidableEq (Except ε α)
  | .ok a, .ok b =>
      if h : a = b then .isTrue (by rw [h])
      else .isFalse (by intro he; cases he; exact h rfl)
  | .ok _, .error _ => .isFalse (by intro he; cases he)
  | .error _, .ok _ => .isFalse (by intro he; cases he)
  | .error e, .error f =>
      if h : e = f then .isTrue (by rw [h])
      else .isFalse (by intro he; cases he; exact h rfl)

/-- Raw JSON scalar values as they appear in a portal payload. -/
inductive Raw where
  | str : String → Raw
  | int : Int → Raw
  | float : ℚ → Raw
deriving DecidableEq

/-- Values stored in a measurement set after type coercion
(`str`, `int` or `float` per the schema's declared value type). -/
inductive PyVal where
  | str : String → PyVal
  | int : Int → PyVal
  | float : ℚ → PyVal
deriving DecidableEq

/-- The declared value type of a schema row (`str`, `int`, `float` in
the `INVERTER_DATA` table). -/
inductive PyType where
  | str
  | int
  | float
deriving DecidableEq

/-- Numeric value of a digit character. -/
def charDigit (c : Char) : Nat := c.toNat - 48

/-- Parse a non-empty all-digit character list as a natural number. -/
def parseNatQ (cs : List Char) : Option Nat :=
  if cs = [] then none
  else if cs.all Char.isDigit then
    some (cs.foldl (fun a c => a * 10 + charDigit c) 0)
  else none

/-- Partial string-to-integer conversion, embedding Python `int(str)`:
an optional minus sign followed by digits; anything else raises. -/
def parseIntQ (s : String) : Option Int :=
  match s.data with
  | '-' :: rest => (parseNatQ rest).map (fun n => -(n : Int))
  | cs => (parseNatQ cs).map (fun n => (n : Int))

/-- Parse an unsigned decimal literal (`"12"` or `"12.5"`) as a rational. -/
def parseUFloatQ (s : String) : Option ℚ :=
  match s.splitOn "." with
  | [ip] => (parseNatQ ip.data).map (fun n => (n : ℚ))
  | [ip, fp] =>
      match parseNatQ ip.data, parseNatQ fp.data with
      | some n, some f => some ((n : ℚ) + (f : ℚ) / (10 : ℚ) ^ fp.length)
      | _, _ => none
  | _ => none

/-- Partial string-to-float conversion, embedding Python `float(str)`. -/
def parseFloatQ (s : String) : Option ℚ :=
  match s.data with
  | '-' :: rest => (parseUFloatQ (String.mk rest)).map Neg.neg
  | _ => parseUFloatQ s

/-- Truncation toward zero, embedding Python `int(float)`. -/
def ratTrunc (q : ℚ) : Int := if 0 ≤ q then Int.floor q else Int.ceil q

/-- Python `int(x)` on a raw JSON scalar; `none` models a raised
`ValueError`/`TypeError`. -/
def pyIntOf : Raw → Option Int
  | .str s => parseIntQ s
  | .int n => some n
  | .float q => some (ratTrunc q)

/-- Python `float(x)` on a raw JSON scalar; `none` models a raised
`ValueError`. -/
def pyFloatOf : Raw → Option ℚ
  | .str s => parseFloatQ s
  | .int n => some (n : ℚ)
  | .float q => some q

/-- Python `str(x)` on a raw JSON scalar; total. -/
def pyStrOf : Raw → String
  | .str s => s
  | .int n => toString n
  | .float q =>
      if q.den = 1 then toString q.num
      else toString q.num ++ "/" ++ toString q.den

/-- Round-half-to-even to an integer, embedding Python `round`. -/
def rndHalfEven (x : ℚ) : Int :=
  let f := Int.floor x
  if x - (f : ℚ) < 1/2 then f
  else if (1 : ℚ)/2 < x - (f : ℚ) then f + 1
  else if f % 2 = 0 then f else f + 1

/-- Python `round(x, p)` for `p` decimal places on the rational model. -/
def pyRound (x : ℚ) (p : Nat) : ℚ :=
  (rndHalfEven (x * (10 : ℚ) ^ p) : ℚ) / (10 : ℚ) ^ p

/-- One coercion step of `_get_value` / `_get_value_from_record`:
`type_(data_raw)` followed, for floats, by `round(result, precision)`.
`none` models the exception raised on a failed conversion. -/
def coerce (t : PyType) (prec : Option Nat) (r : Raw) : Option PyVal :=
  match t with
  | .str => some (PyVal.str (pyStrOf r))
  | .int => (pyIntOf r).map PyVal.int
  | .float =>
      (pyFloatOf r).map (fun q =>
        match prec with
        | some p => PyVal.float (pyRound q p)
        | none => PyVal.int (rndHalfEven q))

/-- Python `==` between measurement values, with numeric cross-type
equality (`0 == 0.0` is true in Python). -/
def pyEq : PyVal → PyVal → Bool
  | .str a, .str b => decide (a = b)
  | .int a, .int b => decide (a = b)
  | .float a, .float b => decide (a = b)
  | .int a, .float b => decide ((a : ℚ) = b)
  | .float a, .int b => decide (a = (b : ℚ))
  | _, _ => false

/-! Insertion-ordered association lists embed Python `dict`:
`dGet` is `d.get`/`d[k]`, `dSet` is `d[k] = v` (replace in place, else
append), `dPop` is `d.pop(k)`, `dKeys` is `list(d.keys())`. -/

/-- Dictionary lookup: value at the first entry with the given key. -/
def dGet {α : Type} : List (String × α) → String → Option α
  | [], _ => none
  | (k, v) :: d, key => if k = key then some v else dGet d key

/-- Dictionary assignment: replace the value at an existing key in
place, otherwise append the new binding at the end. -/
def dSet {α : Type} : List (String × α) → String → α → List (String × α)
  | [], key, val => [(key, val)]
  | (k, v) :: d, key, val =>
      if k = key then (k, val) :: d else (k, v) :: dSet d key val

/-- Dictionary removal of the first entry with the given key. -/
def dPop {α : Type} : List (String × α) → String → List (String × α)
  | [], _ => []
  | (k, v) :: d, key => if k = key then d else (k, v) :: dPop d key

/-- Keys of a dictionary in insertion order. -/
def dKeys {α : Type} (d : List (String × α)) : List String := d.map Prod.fst

theorem dGet_dSet {α : Type} (d : List (String × α)) (k k' : String) (v : α) :
    dGet (dSet d k v) k' = if k = k' then some v else dGet d k' := by
  induction d with
  | nil => by_cases h : k = k' <;> simp [dGet, dSet, h]
  | cons p d ih =>
    obtain ⟨k0, v0⟩ := p
    by_cases h0 : k0 = k
    · subst h0
      by_cases h : k0 = k' <;> simp [dGet, dSet, h]
    · by_cases h : k0 = k'
      · subst h
        have hkk' : ¬ k = k0 := fun he => h0 he.symm
        simp [dGet, dSet, h0, hkk']
      · simp [dGet, dSet, h0, h, ih]

@[simp] theorem dKeys_nil {α : Type} : dKeys ([] : List (String × α)) = [] := rfl

@[simp] theorem dKeys_cons {α : Type} (p : String × α) (d : List (String × α)) :
    dKeys (p :: d) = p.1 :: dKeys d := rfl

theorem dGet_dPop_ne {α : Type} (d : List (String × α)) (k k' : String)
    (h : k ≠ k') : dGet (dPop d k) k' = dGet d k' := by
  induction d with
  | nil => simp [dGet, dPop]
  | cons p d ih =>
    obtain ⟨k0, v0⟩ := p
    by_cases h0 : k0 = k
    · subst h0
      have : ¬ k0 = k' := h
      simp [dGet, dPop, this]
    · have h2 : ¬ k' = k := fun he => h he.symm
      by_cases h1 : k0 = k' <;> simp [dGet, dPop, h0, h1, h2, ih]

theorem dKeys_dPop {α : Type} (d : List (String × α)) (k : String) :
    dKeys (dPop d k) = (dKeys d).erase k := by
  induction d with
  | nil => simp [dPop]
  | cons p d ih =>
    obtain ⟨k0, v0⟩ := p
    by_cases h0 : k0 = k
    · subst h0
      simp [dPop, List.erase_cons]
    · simp [dPop, h0, List.erase_cons, ih]

theorem dGet_eq_none_iff {α : Type} (d : List (String × α)) (k : String) :
    dGet d k = none ↔ k ∉ dKeys d := by
  induction d with
  | nil => simp [dGet]
  | cons p d ih =>
    obtain ⟨k0, v0⟩ := p
    by_cases h0 : k0 = k
    · subst h0
      simp [dGet]
    · have hne : ¬ k = k0 := fun he => h0 he.symm
      simp [dGet, h0, hne, ih]

theorem dGet_isSome_of_mem {α : Type} (d : List (String × α)) (k : String)
    (h : k ∈ dKeys d) : ∃ v, dGet d k = some v := by
  rcases ho : dGet d k with _ | v
  · exact absurd ((dGet_eq_none_iff d k).1 ho) (by simpa using h)
  · exact ⟨v, rfl⟩

theorem dGet_dPop_self {α : Type} (d : List (String × α)) (k : String)
    (h : (dKeys d).Nodup) : dGet (dPop d k) k = none := by
  rw [dGet_eq_none_iff, dKeys_dPop]
  exact h.not_mem_erase

theorem dKeys_dSet {α : Type} (d : List (String × α)) (k : String) (v : α) :
    dKeys (dSet d k v) = if k ∈ dKeys d then dKeys d else dKeys d ++ [k] := by
  induction d with
  | nil => simp [dSet]
  | cons p d ih =>
    obtain ⟨k0, v0⟩ := p
    by_cases h0 : k0 = k
    · subst h0
      simp [dSet]
    · have hne : ¬ k = k0 := fun he => h0 he.symm
      by_cases hm : k ∈ dKeys d
      · simp [dSet, h0, ih, hne, hm]
      · simp [dSet, h0, ih, hne, hm]

theorem mem_of_dGet_eq_some {α : Type} (d : List (String × α)) (k : String)
    (v : α) (h : dGet d k = some v) : (k, v) ∈ d := by
  induction d with
  | nil => simp [dGet] at h
  | cons p d ih =>
    obtain ⟨k0, v0⟩ := p
    by_cases h0 : k0 = k
    · subst h0
      simp [dGet] at h
      simp [h]
    · simp [dGet, h0] at h
      simp [ih h]

theorem mem_dSet {α : Type} (d : List (String × α)) (k : String) (v : α)
    (p : String × α) (h : p ∈ dSet d k v) : p = (k, v) ∨ p ∈ d := by
  induction d with
  | nil => simp [dSet] at h; simp [h]
  | cons q d ih =>
    obtain ⟨k0, v0⟩ := q
    by_cases h0 : k0 = k
    · subst h0
      simp [dSet] at h
      rcases h with h | h
      · exact .inl (by simp [h])
      · exact .inr (by simp [h])
    · simp [dSet, h0] at h
      rcases h with h | h
      · exact .inr (by simp [h])
      · rcases ih h with h' | h'
        · exact .inl h'
        · exact .inr (by simp [h'])

/-!
Attribute-name constants. The repository module `ginlong_const` that
defines them is not among the provided sources; the constants below are
modelled from the spec's attribute vocabulary. Only their identity and
pairwise distinctness matter to the embedded code, never the concrete
strings.
-/

/-- Modelled from the spec: attribute name of the inverter serial number
(the missing `ginlong_const.INVERTER_SERIAL`). -/
def INVERTER_SERIAL : String := "inverter_serial"

/-- Modelled from the spec: attribute name of the plant identifier. -/
def INVERTER_PLANT_ID : String := "inverter_plant_id"

/-- Modelled from the spec: attribute name of the plant latitude. -/
def INVERTER_LAT : String := "inverter_lat"

/-- Modelled from the spec: attribute name of the plant longitude. -/
def INVERTER_LON : String := "inverter_lon"

/-- Modelled from the spec: attribute name of the plant address. -/
def INVERTER_ADDRESS : String := "inverter_address"

/-- Modelled from the spec: attribute name of the portal device identifier. -/
def INVERTER_DEVICE_ID : String := "inverter_device_id"

/-- Modelled from the spec: attribute name of the datalogger serial. -/
def INVERTER_DATALOGGER_SERIAL : String := "inverter_datalogger_serial"

/-- Modelled from the spec: attribute name of the "online" timestamp. -/
def INVERTER_TIMESTAMP_ONLINE : String := "inverter_timestamp_online"

/-- Modelled from the spec: attribute name of the "last update" timestamp. -/
def INVERTER_TIMESTAMP_UPDATE : String := "inverter_timestamp_update"

/-- Modelled from the spec: attribute name of the device state
(the "state" attribute that enumeration must yield first). -/
def INVERTER_STATE : String := "inverter_state"

/-- Modelled from the spec: attribute name of the inverter temperature. -/
def INVERTER_TEMPERATURE : String := "inverter_temperature"

/-- Modelled from the spec: attribute name of the power limit. -/
def INVERTER_POWER_LIMIT : String := "inverter_power_limit"

/-- Modelled from the spec: attribute name of the power state. -/
def INVERTER_POWER_STATE : String := "inverter_power_state"

/-- Modelled from the spec: attribute name of the AC output power. -/
def INVERTER_ACPOWER : String := "inverter_acpower"

/-- Modelled from the spec: attribute name of the AC frequency. -/
def INVERTER_ACFREQUENCY : String := "inverter_acfrequency"

/-- Modelled from the spec: attribute name of last month's energy. -/
def INVERTER_ENERGY_LAST_MONTH : String := "inverter_energy_last_month"

/-- Modelled from the spec: attribute name of the daily-energy counter
that the anti-flicker rule applies to. -/
def INVERTER_ENERGY_TODAY : String := "inverter_energy_today"

/-- Modelled from the spec: attribute name of this month's energy. -/
def INVERTER_ENERGY_THIS_MONTH : String := "inverter_energy_this_month"

/-- Modelled from the spec: attribute name of this year's energy. -/
def INVERTER_ENERGY_THIS_YEAR : String := "inverter_energy_this_year"

/-- Modelled from the spec: attribute name of the lifetime energy. -/
def INVERTER_ENERGY_TOTAL_LIFE : String := "inverter_energy_total_life"

/-- Modelled from the spec: attribute name of string 1 voltage. -/
def STRING1_VOLTAGE : String := "string1_voltage"

/-- Modelled from the spec: attribute name of string 2 voltage. -/
def STRING2_VOLTAGE : String := "string2_voltage"

/-- Modelled from the spec: attribute name of string 3 voltage. -/
def STRING3_VOLTAGE : String := "string3_voltage"

/-- Modelled from the spec: attribute name of string 4 voltage. -/
def STRING4_VOLTAGE : String := "string4_voltage"

/-- Modelled from the spec: attribute name of string 1 current. -/
def STRING1_CURRENT : String := "string1_current"

/-- Modelled from the spec: attribute name of string 2 current. -/
def STRING2_CURRENT : String := "string2_current"

/-- Modelled from the spec: attribute name of string 3 current. -/
def STRING3_CURRENT : String := "string3_current"

/-- Modelled from the spec: attribute name of string 4 current. -/
def STRING4_CURRENT : String := "string4_current"

/-- Modelled from the spec: attribute name of string 1 power. -/
def STRING1_POWER : String := "string1_power"

/-- Modelled from the spec: attribute name of string 2 power. -/
def STRING2_POWER : String := "string2_power"

/-- Modelled from the spec: attribute name of string 3 power. -/
def STRING3_POWER : String := "string3_power"

/-- Modelled from the spec: attribute name of string 4 power. -/
def STRING4_POWER : String := "string4_power"

/-- Modelled from the spec: attribute name of AC phase 1 voltage. -/
def PHASE1_VOLTAGE : String := "phase1_voltage"

/-- Modelled from the spec: attribute name of AC phase 2 voltage. -/
def PHASE2_VOLTAGE : String := "phase2_voltage"

/-- Modelled from the spec: attribute name of AC phase 3 voltage. -/
def PHASE3_VOLTAGE : String := "phase3_voltage"

/-- Modelled from the spec: attribute name of AC phase 1 current. -/
def PHASE1_CURRENT : String := "phase1_current"

/-- Modelled from the spec: attribute name of AC phase 2 current. -/
def PHASE2_CURRENT : String := "phase2_current"

/-- Modelled from the spec: attribute name of AC phase 3 current. -/
def PHASE3_CURRENT : String := "phase3_current"

/-- Modelled from the spec: attribute name of battery remaining capacity. -/
def BAT_REMAINING_CAPACITY : String := "bat_remaining_capacity"

/-- Modelled from the spec: attribute name of battery total energy charged. -/
def BAT_TOTAL_ENERGY_CHARGED : String := "bat_total_energy_charged"

/-- Modelled from the spec: attribute name of battery total energy discharged. -/
def BAT_TOTAL_ENERGY_DISCHARGED : String := "bat_total_energy_discharged"

/-- Modelled from the spec: attribute name of battery daily energy charged. -/
def BAT_DAILY_ENERGY_CHARGED : String := "bat_daily_energy_charged"

/-- Modelled from the spec: attribute name of battery daily energy discharged. -/
def BAT_DAILY_ENERGY_DISCHARGED : String := "bat_daily_energy_discharged"

/-- Modelled from the spec: attribute name of daily on-grid energy. -/
def GRID_DAILY_ON_GRID_ENERGY : String := "grid_daily_on_grid_energy"

/-- Modelled from the spec: attribute name of daily energy purchased. -/
def GRID_DAILY_ENERGY_PURCHASED : String := "grid_daily_energy_purchased"

/-- Modelled from the spec: attribute name of daily energy used. -/
def GRID_DAILY_ENERGY_USED : String := "grid_daily_energy_used"

/-- Modelled from the spec: attribute name of monthly energy purchased. -/
def GRID_MONTHLY_ENERGY_PURCHASED : String := "grid_monthly_energy_purchased"

/-- Modelled from the spec: attribute name of monthly energy used. -/
def GRID_MONTHLY_ENERGY_USED : String := "grid_monthly_energy_used"

/-- Modelled from the spec: attribute name of yearly energy purchased. -/
def GRID_YEARLY_ENERGY_PURCHASED : String := "grid_yearly_energy_purchased"

/-- Modelled from the spec: attribute name of yearly energy used. -/
def GRID_YEARLY_ENERGY_USED : String := "grid_yearly_energy_used"

/-- Modelled from the spec: attribute name of total on-grid energy. -/
def GRID_TOTAL_ON_GRID_ENERGY : String := "grid_total_on_grid_energy"

/-- Modelled from the spec: attribute name of total consumption energy. -/
def GRID_TOTAL_CONSUMPTION_ENERGY : String := "grid_total_consumption_energy"

/-- Modelled from the spec: attribute name of total grid power. -/
def GRID_TOTAL_POWER : String := "grid_total_power"

/-- Modelled from the spec: attribute name of total consumption power. -/
def GRID_TOTAL_CONSUMPTION_POWER : String := "grid_total_consumption_power"

/-- Modelled from the spec: attribute name of total energy used. -/
def GRID_TOTAL_ENERGY_USED : String := "grid_total_energy_used"

/-- Identifier of a payload subsection key of the `INVERTER_DATA` table
(`'none'`, `'realTimeDataImp'`, `'realTimeDataOther'`,
`'realTimeDataState'`, `'realTimeDataPower'`, `'dataJSON'`). -/
inductive SectionId where
  | none_
  | rtImp
  | rtOther
  | rtState
  | rtPower
  | dataJSON
deriving DecidableEq

/-- Extraction strategy of a section: `element` is `VALUE_ELEMENT`
(direct mapping lookup via `_get_value`), `record` is `VALUE_RECORD`
(key/value record scan via `_get_value_from_record`). -/
inductive SrcKind where
  | element
  | record
deriving DecidableEq

/-- One attribute row of the `INVERTER_DATA` table:
logical attribute name, raw payload key, declared type, precision. -/
structure SchemaRow where
  attr : String
  rawKey : String
  ty : PyType
  prec : Option Nat
deriving DecidableEq

/-- Payload type of each section, first list component of `INVERTER_DATA`. -/
def sectionKind : SectionId → SrcKind
  | .none_ => .element
  | .rtImp => .record
  | .rtOther => .record
  | .rtState => .record
  | .rtPower => .record
  | .dataJSON => .element

/-- Attribute rows of each section, in the dict-literal order of
`INVERTER_DATA`. -/
def sectionRows : SectionId → List SchemaRow
  | .none_ =>
      [⟨INVERTER_SERIAL, "sn", .str, none⟩,
       ⟨INVERTER_PLANT_ID, "plantId", .str, none⟩,
       ⟨INVERTER_LAT, "lat", .float, some 7⟩,
       ⟨INVERTER_LON, "lon", .float, some 7⟩,
       ⟨INVERTER_ADDRESS, "address", .str, none⟩,
       ⟨INVERTER_DEVICE_ID, "deviceId", .str, none⟩,
       ⟨INVERTER_DATALOGGER_SERIAL, "dataloggerSn", .str, none⟩,
       ⟨INVERTER_TIMESTAMP_ONLINE, "receiveTimestamps", .int, none⟩,
       ⟨INVERTER_TIMESTAMP_UPDATE, "updateDate", .int, none⟩,
       ⟨INVERTER_STATE, "state", .int, none⟩]
  | .rtImp =>
      [⟨INVERTER_TEMPERATURE, "1df", .float, some 1⟩]
  | .rtOther =>
      [⟨INVERTER_POWER_LIMIT, "1rv", .float, some 2⟩]
  | .rtState =>
      [⟨INVERTER_POWER_STATE, "1fd", .int, none⟩]
  | .rtPower =>
      [⟨INVERTER_ACPOWER, "1ao", .float, some 2⟩,
       ⟨INVERTER_ACFREQUENCY, "1ar", .float, some 2⟩,
       ⟨INVERTER_ENERGY_LAST_MONTH, "1ru", .float, some 2⟩,
       ⟨INVERTER_ENERGY_TODAY, "1bd", .float, some 2⟩,
       ⟨INVERTER_ENERGY_THIS_MONTH, "1be", .float, some 2⟩,
       ⟨INVERTER_ENERGY_THIS_YEAR, "1bf", .float, some 2⟩,
       ⟨INVERTER_ENERGY_TOTAL_LIFE, "1bc", .float, some 2⟩,
       ⟨STRING1_VOLTAGE, "1a", .float, some 2⟩,
       ⟨STRING2_VOLTAGE, "1b", .float, some 2⟩,
       ⟨STRING3_VOLTAGE, "1c", .float, some 2⟩,
       ⟨STRING4_VOLTAGE, "1d", .float, some 2⟩,
       ⟨STRING1_CURRENT, "1j", .float, some 2⟩,
       ⟨STRING2_CURRENT, "1k", .float, some 2⟩,
       ⟨STRING3_CURRENT, "1l", .float, some 2⟩,
       ⟨STRING4_CURRENT, "1m", .float, some 2⟩,
       ⟨STRING1_POWER, "1s", .float, some 2⟩,
       ⟨STRING2_POWER, "1t", .float, some 2⟩,
       ⟨STRING3_POWER, "1u", .float, some 2⟩,
       ⟨STRING4_POWER, "1v", .float, some 2⟩,
       ⟨PHASE1_VOLTAGE, "1af", .float, some 2⟩,
       ⟨PHASE2_VOLTAGE, "1ag", .float, some 2⟩,
       ⟨PHASE3_VOLTAGE, "1ah", .float, some 2⟩,
       ⟨PHASE1_CURRENT, "1ai", .float, some 2⟩,
       ⟨PHASE2_CURRENT, "1aj", .float, some 2⟩,
       ⟨PHASE3_CURRENT, "1ak", .float, some 2⟩]
  | .dataJSON =>
      [⟨BAT_REMAINING_CAPACITY, "1cv", .float, some 2⟩,
       ⟨BAT_TOTAL_ENERGY_CHARGED, "1cx", .float, some 2⟩,
       ⟨BAT_TOTAL_ENERGY_DISCHARGED, "1cy", .float, some 2⟩,
       ⟨BAT_DAILY_ENERGY_CHARGED, "1cz", .float, some 2⟩,
       ⟨BAT_DAILY_ENERGY_DISCHARGED, "1da", .float, some 2⟩,
       ⟨GRID_DAILY_ON_GRID_ENERGY, "1bw", .float, some 2⟩,
       ⟨GRID_DAILY_ENERGY_PURCHASED, "1bx", .float, some 2⟩,
       ⟨GRID_DAILY_ENERGY_USED, "1co", .float, some 2⟩,
       ⟨GRID_MONTHLY_ENERGY_PURCHASED, "1bz", .float, some 2⟩,
       ⟨GRID_MONTHLY_ENERGY_USED, "1cp", .float, some 2⟩,
       ⟨GRID_YEARLY_ENERGY_PURCHASED, "1cb", .float, some 2⟩,
       ⟨GRID_YEARLY_ENERGY_USED, "1cq", .float, some 2⟩,
       ⟨GRID_TOTAL_ON_GRID_ENERGY, "1bu", .float, some 2⟩,
       ⟨GRID_TOTAL_CONSUMPTION_ENERGY, "1cn", .float, some 2⟩,
       ⟨GRID_TOTAL_POWER, "1bq", .float, some 2⟩,
       ⟨GRID_TOTAL_CONSUMPTION_POWER, "1cj", .float, some 2⟩,
       ⟨GRID_TOTAL_ENERGY_USED, "1bv", .float, some 2⟩]

/-- Iteration order over the sections of `INVERTER_DATA`
(Python dict-literal order). -/
def sectionOrder : List SectionId :=
  [.none_, .rtImp, .rtOther, .rtState, .rtPower, .dataJSON]

/-- One record of a `VALUE_RECORD` subsection: a mapping read through
`record.get('key')` and `record.get('value')`, either field possibly
absent. -/
structure DataRec where
  key : Option String
  val : Option Raw
deriving DecidableEq

/-- The `payload['result']['deviceWapper']` subtree, shaped as
`_collect_inverter_data` expects it: direct scalar fields (read by the
`'none'` section), the four real-time record lists, and the `dataJSON`
mapping. -/
structure DeviceWapper where
  top : List (String × Raw)
  rtImp : List DataRec
  rtOther : List DataRec
  rtState : List DataRec
  rtPower : List DataRec
  dataJSON : List (String × Raw)
deriving DecidableEq

/-- Mapping subtree an `element`-kind section reads from. -/
def sectionElem (w : DeviceWapper) : SectionId → List (String × Raw)
  | .none_ => w.top
  | .dataJSON => w.dataJSON
  | _ => []

/-- Record-list subtree a `record`-kind section reads from. -/
def sectionRecs (w : DeviceWapper) : SectionId → List DataRec
  | .rtImp => w.rtImp
  | .rtOther => w.rtOther
  | .rtState => w.rtState
  | .rtPower => w.rtPower
  | _ => []

/-- A measurement set: the `GinlongData._data` dict. -/
abbrev PyDict := List (String × PyVal)

/-- Embedding of `GinlongAPI._get_value`: direct lookup of `key` in a
mapping, absent key yields no value, a failed coercion raises. -/
def getValue (data : List (String × Raw)) (key : String) (t : PyType)
    (prec : Option Nat) : Except String (Option PyVal) :=
  match dGet data key with
  | none => .ok none
  | some raw =>
      match coerce t prec raw with
      | some v => .ok (some v)
      | none => .error "conversion"

/-- Loop body of `GinlongAPI._get_value_from_record`: scan all records,
a later match overwrites the accumulated result, a record without a
`value` field leaves it, a failed coercion raises. -/
def gvfrGo (key : String) (t : PyType) (prec : Option Nat) :
    List DataRec → Option PyVal → Except String (Option PyVal)
  | [], acc => .ok acc
  | r :: rs, acc =>
      if r.key = some key then
        match r.val with
        | some raw =>
            match coerce t prec raw with
            | some v => gvfrGo key t prec rs (some v)
            | none => .error "conversion"
        | none => gvfrGo key t prec rs acc
      else gvfrGo key t prec rs acc

/-- Embedding of `GinlongAPI._get_value_from_record`. -/
def getValueFromRecord (data : List DataRec) (key : String) (t : PyType)
    (prec : Option Nat) : Except String (Option PyVal) :=
  gvfrGo key t prec data none

/-- Extraction of one schema row from the payload, dispatching on the
section's `VALUE_ELEMENT` / `VALUE_RECORD` kind as
`getattr(self, methodname)` does. -/
def extractRow (w : DeviceWapper) (sec : SectionId) (row : SchemaRow) :
    Except String (Option PyVal) :=
  match sectionKind sec with
  | .element => getValue (sectionElem w sec) row.rawKey row.ty row.prec
  | .record => getValueFromRecord (sectionRecs w sec) row.rawKey row.ty row.prec

/-- Inner loop of `_collect_inverter_data` over the attribute rows of
one section: a present value is stored under the attribute name, an
absent one is skipped, a raised coercion error aborts. -/
def collectRows (w : DeviceWapper) (sec : SectionId) :
    List SchemaRow → PyDict → Except String PyDict
  | [], acc => .ok acc
  | row :: rows, acc =>
      match extractRow w sec row with
      | .error e => .error e
      | .ok none => collectRows w sec rows acc
      | .ok (some v) => collectRows w sec rows (dSet acc row.attr v)

/-- Outer loop of `_collect_inverter_data` over the sections. -/
def collectSections (w : DeviceWapper) :
    List SectionId → PyDict → Except String PyDict
  | [], acc => .ok acc
  | sec :: secs, acc =>
      match collectRows w sec (sectionRows sec) acc with
      | .error e => .error e
      | .ok acc2 => collectSections w secs acc2

/-- Embedding of `GinlongAPI._collect_inverter_data`, starting from the
fresh empty `self._data`. -/
def collectInverterData (w : DeviceWapper) : Except String PyDict :=
  collectSections w sectionOrder []

/-- Python `float(x)` on a stored measurement value. -/
def pyFloatVal : PyVal → Option ℚ
  | .str s => parseFloatQ s
  | .int n => some (n : ℚ)
  | .float q => some q

/-- One timestamp fixup step of `_post_process`:
`self._data[key] = float(self._data[key]) / 1000` when the key is
present; a non-numeric stored value would raise. -/
def fixTimestamp (d : PyDict) (key : String) : Except String PyDict :=
  match dGet d key with
  | none => .ok d
  | some v =>
      match pyFloatVal v with
      | some q => .ok (dSet d key (PyVal.float (q / 1000)))
      | none => .error "float conversion"

/-- First loop of `_purge_if_unused`: `True` iff every listed element is
present and equal (Python `==`) to the given value; an absent element or
a differing value returns early. -/
def purgeCheck (d : PyDict) (v : PyVal) : List String → Bool
  | [] => true
  | e :: es =>
      match dGet d e with
      | none => false
      | some x => if pyEq x v then purgeCheck d v es else false

/-- Embedding of `GinlongAPI._purge_if_unused`: pop every listed element
exactly when all of them equal the given value. -/
def purgeIfUnused (d : PyDict) (v : PyVal) (es : List String) : PyDict :=
  if purgeCheck d v es then es.foldl (fun acc e => dPop acc e) d else d

/-- Embedding of `GinlongAPI._post_process`: on a non-empty measurement
set, divide both timestamps by 1000 when present, then prune each AC
phase whose current and voltage both equal `0.0`. -/
def postProcess (d : PyDict) : Except String PyDict :=
  if d = [] then .ok d
  else
    match fixTimestamp d INVERTER_TIMESTAMP_ONLINE with
    | .error e => .error e
    | .ok d1 =>
        match fixTimestamp d1 INVERTER_TIMESTAMP_UPDATE with
        | .error e => .error e
        | .ok d2 =>
            let d3 := purgeIfUnused d2 (PyVal.float 0) [PHASE1_CURRENT, PHASE1_VOLTAGE]
            let d4 := purgeIfUnused d3 (PyVal.float 0) [PHASE2_CURRENT, PHASE2_VOLTAGE]
            let d5 := purgeIfUnused d4 (PyVal.float 0) [PHASE3_CURRENT, PHASE3_VOLTAGE]
            .ok d5

/-- Extraction pipeline of one fetched payload:
`_collect_inverter_data` followed by `_post_process`. -/
def extractPipeline (w : DeviceWapper) : Except String PyDict :=
  match collectInverterData w with
  | .error e => .error e
  | .ok d => postProcess d

/-- Session-visible state of `GinlongAPI`: the `_online` flag and the
optional `_inverter_list` directory (serial to device id). -/
structure ApiState where
  online : Bool
  inverterList : Option (List (String × String))
deriving DecidableEq

/-- Embedding of `GinlongAPI.fetch_inverter_data`: returns a measurement
set only when online, the serial is in the directory and the portal
delivered a payload; an extraction exception propagates. -/
def fetchInverterData (s : ApiState) (serial : String)
    (payload : Option DeviceWapper) : Except String (Option PyDict) :=
  if s.online then
    match s.inverterList with
    | some lst =>
        match dGet lst serial with
        | some _ =>
            match payload with
            | some w =>
                match extractPipeline w with
                | .error e => .error e
                | .ok d => .ok (some d)
            | none => .ok none
        | none => .ok none
    | none => .ok none
  else .ok none

/-- Embedding of `GinlongData.keys`: list the measurement names, then
`remove` the state attribute (raising `ValueError` when it is absent)
and re-`insert` it at position 0. -/
def ginlongKeys (d : PyDict) : Except String (List String) :=
  if INVERTER_STATE ∈ dKeys d then
    .ok (INVERTER_STATE :: (dKeys d).erase INVERTER_STATE)
  else .error "ValueError"

/-!
Service layer from `service.py`. Local wall-clock instants are rationals
counting minutes from a fixed local midnight, so `timedelta(minutes=m)`
is `+ m` and `datetime.hour` is derived by `hourOf`. Each embedded
operation receives one `now` instant for the `datetime.now()` reads of
one cycle.
-/

/-- Local hour of day of a wall-clock instant given in minutes. -/
def hourOf (t : ℚ) : Int := (Int.floor (t / 60)) % 24

/-- Constant `SCHEDULE_OK` of `service.py`. -/
def SCHEDULE_OK : Int := 2

/-- Constant `SCHEDULE_NOK` of `service.py`. -/
def SCHEDULE_NOK : Int := 1

/-- Constant `HRS_BETWEEN_LOGIN` (2 hours) in minutes. -/
def HRS_BETWEEN_LOGIN : ℚ := 120

/-- A registered `ServiceSubscriber`: its `_measured` timestamp and the
outcome of its abstract `do_update` hook (the source leaves `do_update`
to subclasses; a constant acceptance outcome stands in for it). -/
structure Subscriber where
  measured : Option ℚ
  acceptUpdate : Bool
deriving DecidableEq

/-- Embedding of `ServiceSubscriber.data_updated`: advance `_measured`
to the delivery timestamp when it differs and `do_update` accepts. -/
def dataUpdated (sub : Subscriber) (lastUpdated : Option ℚ) : Subscriber :=
  if sub.measured ≠ lastUpdated then
    if sub.acceptUpdate then { sub with measured := lastUpdated } else sub
  else sub

/-- The daily-energy branch of `InverterService.update_devices`
(the anti-flicker rule): before local noon a state of 2 forces 0; a
state of 1 forces 0 only when the state subscriber's last-accepted
timestamp is more than 10 minutes in the past. A missing state
attribute raises `AttributeError`; a missing state subscriber raises
`KeyError` when the state-1 branch reads it. -/
def energyTodayValue (data : PyDict) (stateSub : Option Subscriber)
    (now : ℚ) (raw : PyVal) : Except String PyVal :=
  let is_am : Bool := decide (hourOf now < 12)
  match dGet data INVERTER_STATE with
  | none => .error "AttributeError"
  | some st =>
      if pyEq st (PyVal.int 2) && is_am then .ok (PyVal.int 0)
      else if pyEq st (PyVal.int 1) && is_am then
        match stateSub with
        | none => .error "KeyError"
        | some ssub =>
            match ssub.measured with
            | some lus =>
                if lus + 10 < now then .ok (PyVal.int 0) else .ok raw
            | none => .ok raw
      else .ok raw

/-- Attribute loop of `InverterService.update_devices` for one device:
for each enumerated attribute with a registered subscriber, compute the
delivered value (anti-flicker for the daily-energy attribute) and push
it; the subscriber table for the device is threaded because the state
subscriber may be updated before the energy attribute is dispatched. -/
def updateDevicesAttrs (data : PyDict) (lastUpd : Option ℚ) (now : ℚ) :
    List String → List (String × Subscriber) →
    Except String (List (String × Subscriber))
  | [], tab => .ok tab
  | attr :: rest, tab =>
      match dGet tab attr with
      | none => updateDevicesAttrs data lastUpd now rest tab
      | some sub =>
          match dGet data attr with
          | none => .error "AttributeError"
          | some rawv =>
              match (if attr = INVERTER_ENERGY_TODAY then
                       energyTodayValue data (dGet tab INVERTER_STATE) now rawv
                     else .ok rawv) with
              | .error e => .error e
              | .ok _value =>
                  updateDevicesAttrs data lastUpd now rest
                    (dSet tab attr (dataUpdated sub lastUpd))

/-- The subscription registry `InverterService._subscriptions`. -/
abbrev Subs := List (String × List (String × Subscriber))

/-- Embedding of `InverterService.update_devices`: read the serial from
the measurement set, skip unsubscribed devices, enumerate the
attributes (`state` first) and dispatch each subscribed one. -/
def updateDevices (subs : Subs) (data : PyDict) (lastUpd : Option ℚ)
    (now : ℚ) : Except String Subs :=
  match dGet data INVERTER_SERIAL with
  | none => .error "AttributeError"
  | some sv =>
      match sv with
      | PyVal.str serial =>
          match dGet subs serial with
          | none => .ok subs
          | some tab =>
              match ginlongKeys data with
              | .error e => .error e
              | .ok ks =>
                  match updateDevicesAttrs data lastUpd now ks tab with
                  | .error e => .error e
                  | .ok tab2 => .ok (dSet subs serial tab2)
      | _ => .ok subs

/-- State of `InverterService`: the wrapped API session, the login and
last-update timestamps, and the subscription registry. -/
structure SvcState where
  api : ApiState
  logintime : Option ℚ
  lastUpdated : Option ℚ
  subs : Subs
deriving DecidableEq

/-- Outcome of the portal's response to one `validateLogin` POST:
transport/HTTP failure, a response without the `result` field
(`KeyError`), a response whose `isAccept` is not 1, or acceptance. -/
inductive LoginResp where
  | fail
  | keyErr
  | noAccept
  | accept
deriving DecidableEq

/-- Portal-call counters instrumenting one operation: authentication
POSTs and inverter-directory discovery GETs performed. -/
structure Calls where
  auth : Nat
  disc : Nat
deriving DecidableEq

/-- Embedding of `GinlongAPI.login`: clear the directory, POST the
credentials, and on acceptance run directory discovery, whose failure
forces the session offline; returns the resulting `_online` flag. -/
def apiLogin (s : ApiState) (r : LoginResp)
    (d : Option (List (String × String))) : ApiState × Bool × Calls :=
  match r with
  | .fail => (⟨false, none⟩, false, ⟨1, 0⟩)
  | .keyErr => (⟨false, none⟩, false, ⟨1, 0⟩)
  | .noAccept => (⟨s.online, none⟩, s.online, ⟨1, 0⟩)
  | .accept =>
      match d with
      | some lst => (⟨true, some lst⟩, true, ⟨1, 1⟩)
      | none => (⟨false, none⟩, false, ⟨1, 1⟩)

/-- Embedding of `InverterService._login`: call the portal only when the
session is not already online, record the login time on success, and
return the resulting online flag. -/
def svcLogin (s : SvcState) (now : ℚ) (r : LoginResp)
    (d : Option (List (String × String))) : SvcState × Bool × Calls :=
  if s.api.online then (s, true, ⟨0, 0⟩)
  else
    let res := apiLogin s.api r d
    let lt := if res.2.1 then some now else s.logintime
    ({ s with api := res.1, logintime := lt }, res.1.online, res.2.2)

/-- Embedding of `InverterService._logout` composed with
`GinlongAPI.logout`: session offline, directory and login time cleared. -/
def svcLogout (s : SvcState) : SvcState :=
  { s with api := ⟨false, none⟩, logintime := none }

/-- Portal behavior during one update cycle: the login response, the
discovery response, and the per-serial `goDetailAjax` payloads. -/
structure CycleEnv where
  loginResp : LoginResp
  discResp : Option (List (String × String))
  payloads : List (String × DeviceWapper)
deriving DecidableEq

/-- The inverter loop of `InverterService.async_update`: fetch each
serial; a delivered payload dispatches to subscribers and marks the
cycle OK, a missing one marks it NOK and forces a logout. The final
`Nat` counts the fetches that returned no data. -/
def updateLoop (env : CycleEnv) (now : ℚ) :
    List String → SvcState → Int → Nat → Except String (SvcState × Int × Nat)
  | [], s, u, f => .ok (s, u, f)
  | serial :: rest, s, _u, f =>
      match fetchInverterData s.api serial (dGet env.payloads serial) with
      | .error e => .error e
      | .ok none => updateLoop env now rest (svcLogout s) SCHEDULE_NOK (f + 1)
      | .ok (some d) =>
          match updateDevices s.subs d (some now) now with
          | .error e => .error e
          | .ok subs2 =>
              updateLoop env now rest
                { s with lastUpdated := some now, subs := subs2 } SCHEDULE_OK f

/-- Login-age check at the end of `async_update`: force a logout once
more than `HRS_BETWEEN_LOGIN` has elapsed since the last login. -/
def ageCheck (s : SvcState) (now : ℚ) : SvcState :=
  match s.logintime with
  | some lt => if lt + HRS_BETWEEN_LOGIN < now then svcLogout s else s
  | none => s

/-- Embedding of `InverterService.async_update`: ensure login, loop over
the directory, then request the next tick (`schedule_update`, counted by
the returned `Nat`) and apply the login-age check; a `None` directory
after a successful login returns early without scheduling. Result:
final state, cycle outcome, schedule count, portal-call counters. -/
def asyncUpdate (s : SvcState) (now : ℚ) (env : CycleEnv) :
    Except String (SvcState × Int × Nat × Calls) :=
  let res := svcLogin s now env.loginResp env.discResp
  let s1 := res.1
  let c := res.2.2
  if res.2.1 then
    match s1.api.inverterList with
    | none => .ok (s1, SCHEDULE_NOK, 0, c)
    | some inverters =>
        match updateLoop env now (dKeys inverters) s1 SCHEDULE_NOK 0 with
        | .error e => .error e
        | .ok (s2, u, _f) => .ok (ageCheck s2 now, u, 1, c)
  else .ok (ageCheck s1 now, SCHEDULE_NOK, 1, c)

theorem gvfrGo_spec (key : String) (t : PyType) (prec : Option Nat)
    (recs : List DataRec) :
    ∀ acc : Option PyVal,
      (∀ r ∈ recs, r.key = some key → (r.val.bind (coerce t prec)).isSome = true) →
      gvfrGo key t prec recs acc =
        .ok (((recs.filter (fun r => decide (r.key = some key))).getLast?).elim
              acc (fun r => r.val.bind (coerce t prec))) := by
  induction recs with
  | nil => intro acc _; rfl
  | cons r rs ih =>
    intro acc h
    by_cases hk : r.key = some key
    · have hr := h r (by simp) hk
      rcases hv : r.val with _ | raw
      · rw [hv] at hr; simp at hr
      · rcases hc : coerce t prec raw with _ | v
        · rw [hv] at hr; simp [hc] at hr
        · have step : gvfrGo key t prec (r :: rs) acc = gvfrGo key t prec rs (some v) := by
            simp [gvfrGo, hk, hv, hc]
          have ih' := ih (some v) (fun r' hm hk' => h r' (by simp [hm]) hk')
          rw [step, ih']
          have hfil : (r :: rs).filter (fun r => decide (r.key = some key)) =
              r :: rs.filter (fun r => decide (r.key = some key)) := by
            simp [List.filter_cons, hk]
          rw [hfil]
          rcases hrs : rs.filter (fun r => decide (r.key = some key)) with _ | ⟨b, l⟩
          · rw [hrs]
            congr 1
            show some v = r.val.bind (coerce t prec)
            rw [hv]
            show some v = coerce t prec raw
            rw [hc]
          · rw [hrs, List.getLast?_cons_cons]
            obtain ⟨x, hx⟩ := Option.isSome_iff_exists.1
              (List.getLast?_isSome.2 (by simp) : ((b :: l).getLast?).isSome)
            rw [hx]
            rfl
    · have step : gvfrGo key t prec (r :: rs) acc = gvfrGo key t prec rs acc := by
        simp [gvfrGo, hk]
      have hfil : (r :: rs).filter (fun r => decide (r.key = some key)) =
          rs.filter (fun r => decide (r.key = some key)) := by
        simp [List.filter_cons, hk]
      rw [step, ih acc (fun r' hm hk' => h r' (by simp [hm]) hk'), hfil]

/-- C6: for every record list and rawKey, record-scan extraction returns
the (coerced) value of the last record whose key field equals the
rawKey — the scan continues after a hit — and returns no value when no
record matches; the hypothesis states that every matching record carries
a value convertible to the declared type, which is what the claim's
notion of "the value of a record" presupposes. -/
theorem C6_theorem (recs : List DataRec) (key : String) (t : PyType)
    (prec : Option Nat)
    (h : ∀ r ∈ recs, r.key = some key → (r.val.bind (coerce t prec)).isSome = true) :
    getValueFromRecord recs key t prec =
      .ok (((recs.filter (fun r => decide (r.key = some key))).getLast?).elim
            none (fun r => r.val.bind (coerce t prec))) :=
  gvfrGo_spec key t prec recs none h

/-- C6 witness: the claim's concrete case, records
`[{key:"1fd",value:"1"},{key:"1fd",value:"2"}]` under the integer-typed
row keyed `1fd` extract the last match's value `2`. -/
theorem C6_theorem_witness :
    getValueFromRecord
      [⟨some "1fd", some (Raw.str "1")⟩, ⟨some "1fd", some (Raw.str "2")⟩]
      "1fd" PyType.int none = .ok (some (PyVal.int 2)) :=
  (C6_theorem
    [⟨some "1fd", some (Raw.str "1")⟩, ⟨some "1fd", some (Raw.str "2")⟩]
    "1fd" PyType.int none (by decide)).trans (by decide)

/-- C5: for every measurement set that contains the state attribute,
`keys()` yields the state attribute first, and every other attribute of
the set exactly once after it (the key list of a Python dict has no
duplicates, stated as the `Nodup` hypothesis). -/
theorem C5_theorem (d : PyDict) (h1 : INVERTER_STATE ∈ dKeys d)
    (h2 : (dKeys d).Nodup) :
    ginlongKeys d = .ok (INVERTER_STATE :: (dKeys d).erase INVERTER_STATE) ∧
    INVERTER_STATE ∉ (dKeys d).erase INVERTER_STATE ∧
    ∀ a, a ≠ INVERTER_STATE →
      ((dKeys d).erase INVERTER_STATE).count a = (dKeys d).count a ∧
      (a ∈ dKeys d → ((dKeys d).erase INVERTER_STATE).count a = 1) := by
  refine ⟨by simp [ginlongKeys, h1], h2.not_mem_erase, ?_⟩
  intro a ha
  have hcount : ((dKeys d).erase INVERTER_STATE).count a = (dKeys d).count a :=
    List.count_erase_of_ne ha (dKeys d)
  exact ⟨hcount, fun hm => hcount.trans (List.count_eq_one_of_mem h2 hm)⟩

/-- C5 witness: a concrete two-attribute set enumerates as the state
attribute followed by the energy attribute. -/
theorem C5_theorem_witness :
    ginlongKeys [(INVERTER_ENERGY_TODAY, PyVal.float 1), (INVERTER_STATE, PyVal.int 2)] =
      .ok [INVERTER_STATE, INVERTER_ENERGY_TODAY] :=
  (C5_theorem [(INVERTER_ENERGY_TODAY, PyVal.float 1), (INVERTER_STATE, PyVal.int 2)]
    (by decide) (by decide)).1.trans (by decide)

theorem fixTimestamp_eq_none (d : PyDict) (key : String)
    (hg : dGet d key = none) : fixTimestamp d key = .ok d := by
  unfold fixTimestamp
  rw [hg]

theorem fixTimestamp_eq_some (d : PyDict) (key : String) (v : PyVal) (q : ℚ)
    (hg : dGet d key = some v) (hf : pyFloatVal v = some q) :
    fixTimestamp d key = .ok (dSet d key (PyVal.float (q / 1000))) := by
  have h1 : fixTimestamp d key =
      (match pyFloatVal v with
       | some q => Except.ok (dSet d key (PyVal.float (q / 1000)))
       | none => Except.error "float conversion") := by
    unfold fixTimestamp
    rw [hg]
  rw [h1, hf]

theorem fixTimestamp_eq_err (d : PyDict) (key : String) (v : PyVal)
    (hg : dGet d key = some v) (hf : pyFloatVal v = none) :
    fixTimestamp d key = .error "float conversion" := by
  unfold fixTimestamp
  rw [hg]
  show (match pyFloatVal v with
    | some q => Except.ok (dSet d key (PyVal.float (q / 1000)))
    | none => Except.error "float conversion") = Except.error "float conversion"
  rw [hf]

theorem fixTimestamp_get_ne (d d1 : PyDict) (key k : String)
    (h : fixTimestamp d key = .ok d1) (hk : key ≠ k) :
    dGet d1 k = dGet d k := by
  rcases hg : dGet d key with _ | v
  · rw [fixTimestamp_eq_none d key hg] at h
    cases h
    rfl
  · rcases hf : pyFloatVal v with _ | q
    · rw [fixTimestamp_eq_err d key v hg hf] at h
      cases h
    · rw [fixTimestamp_eq_some d key v q hg hf] at h
      cases h
      rw [dGet_dSet, if_neg hk]

theorem fixTimestamp_get_self (d d1 : PyDict) (key : String)
    (h : fixTimestamp d key = .ok d1) :
    (∀ v, dGet d key = some v →
       ∃ q, pyFloatVal v = some q ∧ dGet d1 key = some (PyVal.float (q / 1000))) ∧
    (dGet d key = none → dGet d1 key = none) := by
  rcases hg : dGet d key with _ | v
  · rw [fixTimestamp_eq_none d key hg] at h
    cases h
    exact ⟨fun v hv => (by cases hv), fun _ => hg⟩
  · rcases hf : pyFloatVal v with _ | q
    · rw [fixTimestamp_eq_err d key v hg hf] at h
      cases h
    · rw [fixTimestamp_eq_some d key v q hg hf] at h
      cases h
      refine ⟨fun v' hv' => ?_, fun hn => (by cases hn)⟩
      cases hv'
      exact ⟨q, hf, by rw [dGet_dSet, if_pos rfl]⟩

theorem fixTimestamp_nodup (d d1 : PyDict) (key : String)
    (h : fixTimestamp d key = .ok d1) (hnd : (dKeys d).Nodup) :
    (dKeys d1).Nodup := by
  rcases hg : dGet d key with _ | v
  · rw [fixTimestamp_eq_none d key hg] at h
    cases h
    exact hnd
  · rcases hf : pyFloatVal v with _ | q
    · rw [fixTimestamp_eq_err d key v hg hf] at h
      cases h
    · rw [fixTimestamp_eq_some d key v q hg hf] at h
      cases h
      have hm : key ∈ dKeys d := by
        by_contra hnm
        rw [(dGet_eq_none_iff d key).2 hnm] at hg
        cases hg
      rw [dKeys_dSet, if_pos hm]
      exact hnd

theorem foldl_dPop_get {k : String} :
    ∀ (es : List String) (d : PyDict), k ∉ es →
      dGet (es.foldl (fun acc e => dPop acc e) d) k = dGet d k
  | [], _, _ => rfl
  | e :: es, d, h => by
    have hne : e ≠ k := fun he => h (by simp [he])
    rw [List.foldl_cons, foldl_dPop_get es (dPop d e) (fun hm => h (by simp [hm])),
      dGet_dPop_ne d e k hne]

theorem purge_get_notin (d : PyDict) (v : PyVal) (es : List String)
    (k : String) (h : k ∉ es) :
    dGet (purgeIfUnused d v es) k = dGet d k := by
  unfold purgeIfUnused
  by_cases hc : purgeCheck d v es = true
  · rw [if_pos hc]
    exact foldl_dPop_get es d h
  · rw [if_neg hc]

theorem foldl_dPop_nodup :
    ∀ (es : List String) (d : PyDict), (dKeys d).Nodup →
      (dKeys (es.foldl (fun acc e => dPop acc e) d)).Nodup
  | [], _, h => h
  | e :: es, d, h => by
    rw [List.foldl_cons]
    exact foldl_dPop_nodup es (dPop d e) (by rw [dKeys_dPop]; exact h.erase e)

theorem purge_nodup (d : PyDict) (v : PyVal) (es : List String)
    (hnd : (dKeys d).Nodup) : (dKeys (purgeIfUnused d v es)).Nodup := by
  unfold purgeIfUnused
  by_cases hc : purgeCheck d v es = true
  · rw [if_pos hc]; exact foldl_dPop_nodup es d hnd
  · rw [if_neg hc]; exact hnd

theorem purgeCheck_pair_expand (d : PyDict) (val : PyVal) (c v : String) :
    purgeCheck d val [c, v] =
      (match dGet d c with
       | none => false
       | some x =>
           if pyEq x val then
             (match dGet d v with
              | none => false
              | some y => if pyEq y val then true else false)
           else false) := by
  unfold purgeCheck
  rcases dGet d c with _ | x
  · rfl
  · by_cases hx : pyEq x val = true
    · simp only [hx, if_true]
      unfold purgeCheck
      rcases dGet d v with _ | y
      · rfl
      · by_cases hy : pyEq y val = true
        · simp [hy, purgeCheck]
        · simp [hy]
    · simp [hx]

theorem purgeCheck_pair_iff (d : PyDict) (val : PyVal) (c v : String) :
    purgeCheck d val [c, v] = true ↔
      (∃ x, dGet d c = some x ∧ pyEq x val = true) ∧
      (∃ y, dGet d v = some y ∧ pyEq y val = true) := by
  rw [purgeCheck_pair_expand]
  rcases hc : dGet d c with _ | x
  · simp
  · rcases hv : dGet d v with _ | y
    · by_cases hx : pyEq x val = true <;> simp [hx]
    · by_cases hx : pyEq x val = true <;> by_cases hy : pyEq y val = true <;>
        simp [hx, hy]

theorem purge_pair_none (d : PyDict) (val : PyVal) (c v : String)
    (hnd : (dKeys d).Nodup) (hcv : c ≠ v)
    (hchk : purgeCheck d val [c, v] = true) :
    dGet (purgeIfUnused d val [c, v]) c = none ∧
    dGet (purgeIfUnused d val [c, v]) v = none := by
  unfold purgeIfUnused
  rw [if_pos hchk]
  have hshape : ([c, v].foldl (fun acc e => dPop acc e) d) = dPop (dPop d c) v := rfl
  rw [hshape]
  constructor
  · rw [dGet_dPop_ne (dPop d c) v c (fun he => hcv he.symm)]
    exact dGet_dPop_self d c hnd
  · exact dGet_dPop_self (dPop d c) v (by rw [dKeys_dPop]; exact hnd.erase c)

theorem purge_noop (d : PyDict) (val : PyVal) (es : List String)
    (hchk : ¬ purgeCheck d val es = true) : purgeIfUnused d val es = d := by
  unfold purgeIfUnused
  rw [if_neg hchk]

theorem postProcess_eq (d d' : PyDict) (h : postProcess d = .ok d') :
    (d = [] ∧ d' = d) ∨
    ∃ d1 d2, fixTimestamp d INVERTER_TIMESTAMP_ONLINE = .ok d1 ∧
      fixTimestamp d1 INVERTER_TIMESTAMP_UPDATE = .ok d2 ∧
      d' = purgeIfUnused (purgeIfUnused (purgeIfUnused d2 (PyVal.float 0)
              [PHASE1_CURRENT, PHASE1_VOLTAGE]) (PyVal.float 0)
              [PHASE2_CURRENT, PHASE2_VOLTAGE]) (PyVal.float 0)
              [PHASE3_CURRENT, PHASE3_VOLTAGE] := by
  unfold postProcess at h
  by_cases hd : d = []
  · rw [if_pos hd] at h
    cases h
    exact .inl ⟨hd, rfl⟩
  · rw [if_neg hd] at h
    rcases h1 : fixTimestamp d INVERTER_TIMESTAMP_ONLINE with e | d1
    · simp only [h1] at h
      exact Except.noConfusion h
    · simp only [h1] at h
      rcases h2 : fixTimestamp d1 INVERTER_TIMESTAMP_UPDATE with e | d2
      · simp only [h2] at h
        exact Except.noConfusion h
      · simp only [h2] at h
        cases h
        exact .inr ⟨d1, d2, rfl, h2, rfl⟩

/-- C8: for every measurement set, post-processing divides the online
timestamp attribute and the last-update timestamp attribute by 1000
exactly when each is present (after a `float()` conversion of the
stored value), and a set lacking either is unchanged in that field. -/
theorem C8_theorem (d d' : PyDict) (h : postProcess d = .ok d') :
    (∀ v, dGet d INVERTER_TIMESTAMP_ONLINE = some v →
       ∃ q, pyFloatVal v = some q ∧
         dGet d' INVERTER_TIMESTAMP_ONLINE = some (PyVal.float (q / 1000))) ∧
    (dGet d INVERTER_TIMESTAMP_ONLINE = none →
       dGet d' INVERTER_TIMESTAMP_ONLINE = none) ∧
    (∀ v, dGet d INVERTER_TIMESTAMP_UPDATE = some v →
       ∃ q, pyFloatVal v = some q ∧
         dGet d' INVERTER_TIMESTAMP_UPDATE = some (PyVal.float (q / 1000))) ∧
    (dGet d INVERTER_TIMESTAMP_UPDATE = none →
       dGet d' INVERTER_TIMESTAMP_UPDATE = none) := by
  rcases postProcess_eq d d' h with ⟨hd, rfl⟩ | ⟨d1, d2, h1, h2, rfl⟩
  · subst hd
    exact ⟨fun v hv => by simp [dGet] at hv, fun _ => rfl,
           fun v hv => by simp [dGet] at hv, fun _ => rfl⟩
  · have honup : INVERTER_TIMESTAMP_UPDATE ≠ INVERTER_TIMESTAMP_ONLINE := by decide
    have ho1 : INVERTER_TIMESTAMP_ONLINE ∉ [PHASE1_CURRENT, PHASE1_VOLTAGE] := by decide
    have ho2 : INVERTER_TIMESTAMP_ONLINE ∉ [PHASE2_CURRENT, PHASE2_VOLTAGE] := by decide
    have ho3 : INVERTER_TIMESTAMP_ONLINE ∉ [PHASE3_CURRENT, PHASE3_VOLTAGE] := by decide
    have hu1 : INVERTER_TIMESTAMP_UPDATE ∉ [PHASE1_CURRENT, PHASE1_VOLTAGE] := by decide
    have hu2 : INVERTER_TIMESTAMP_UPDATE ∉ [PHASE2_CURRENT, PHASE2_VOLTAGE] := by decide
    have hu3 : INVERTER_TIMESTAMP_UPDATE ∉ [PHASE3_CURRENT, PHASE3_VOLTAGE] := by decide
    have hout : INVERTER_TIMESTAMP_ONLINE ≠ INVERTER_TIMESTAMP_UPDATE := by decide
    have hdO : dGet (purgeIfUnused (purgeIfUnused (purgeIfUnused d2 (PyVal.float 0)
        [PHASE1_CURRENT, PHASE1_VOLTAGE]) (PyVal.float 0)
        [PHASE2_CURRENT, PHASE2_VOLTAGE]) (PyVal.float 0)
        [PHASE3_CURRENT, PHASE3_VOLTAGE]) INVERTER_TIMESTAMP_ONLINE =
        dGet d1 INVERTER_TIMESTAMP_ONLINE := by
      rw [purge_get_notin _ _ _ _ ho3, purge_get_notin _ _ _ _ ho2,
        purge_get_notin _ _ _ _ ho1]
      exact fixTimestamp_get_ne d1 d2 INVERTER_TIMESTAMP_UPDATE
        INVERTER_TIMESTAMP_ONLINE h2 honup
    have hdU : dGet (purgeIfUnused (purgeIfUnused (purgeIfUnused d2 (PyVal.float 0)
        [PHASE1_CURRENT, PHASE1_VOLTAGE]) (PyVal.float 0)
        [PHASE2_CURRENT, PHASE2_VOLTAGE]) (PyVal.float 0)
        [PHASE3_CURRENT, PHASE3_VOLTAGE]) INVERTER_TIMESTAMP_UPDATE =
        dGet d2 INVERTER_TIMESTAMP_UPDATE := by
      rw [purge_get_notin _ _ _ _ hu3, purge_get_notin _ _ _ _ hu2,
        purge_get_notin _ _ _ _ hu1]
    have hU1 : dGet d1 INVERTER_TIMESTAMP_UPDATE = dGet d INVERTER_TIMESTAMP_UPDATE :=
      fixTimestamp_get_ne d d1 INVERTER_TIMESTAMP_ONLINE INVERTER_TIMESTAMP_UPDATE h1 hout
    refine ⟨fun v hv => ?_, fun hn => ?_, fun v hv => ?_, fun hn => ?_⟩
    · obtain ⟨q, hq, hd1⟩ := (fixTimestamp_get_self d d1 INVERTER_TIMESTAMP_ONLINE h1).1 v hv
      exact ⟨q, hq, by rw [hdO]; exact hd1⟩
    · rw [hdO]
      exact (fixTimestamp_get_self d d1 INVERTER_TIMESTAMP_ONLINE h1).2 hn
    · obtain ⟨q, hq, hd2⟩ := (fixTimestamp_get_self d1 d2 INVERTER_TIMESTAMP_UPDATE h2).1 v
        (by rw [hU1]; exact hv)
      exact ⟨q, hq, by rw [hdU]; exact hd2⟩
    · rw [hdU]
      exact (fixTimestamp_get_self d1 d2 INVERTER_TIMESTAMP_UPDATE h2).2
        (by rw [hU1]; exact hn)

/-- C8 witness: the claim's concrete case, a raw `updateDate` of
`1700000000000` post-processes to its value divided by 1000, which is
`1700000000`. -/
theorem C8_theorem_witness :
    (∃ q, pyFloatVal (PyVal.int 1700000000000) = some q ∧
       dGet [(INVERTER_TIMESTAMP_UPDATE,
               PyVal.float (((1700000000000 : Int) : ℚ) / 1000))]
         INVERTER_TIMESTAMP_UPDATE = some (PyVal.float (q / 1000))) ∧
    ((1700000000000 : ℚ) / 1000 = 1700000000) := by
  constructor
  · exact (C8_theorem [(INVERTER_TIMESTAMP_UPDATE, PyVal.int 1700000000000)]
      [(INVERTER_TIMESTAMP_UPDATE,
        PyVal.float (((1700000000000 : Int) : ℚ) / 1000))]
      (by rfl)).2.2.1 (PyVal.int 1700000000000) rfl
  · norm_num

theorem purge_pair_cases (dx : PyDict) (c v : String)
    (hnd : (dKeys dx).Nodup) (hcv : c ≠ v) :
    ((∃ x y, dGet dx c = some x ∧ dGet dx v = some y ∧
        pyEq x (PyVal.float 0) = true ∧ pyEq y (PyVal.float 0) = true) →
      dGet (purgeIfUnused dx (PyVal.float 0) [c, v]) c = none ∧
      dGet (purgeIfUnused dx (PyVal.float 0) [c, v]) v = none) ∧
    (¬ (∃ x y, dGet dx c = some x ∧ dGet dx v = some y ∧
        pyEq x (PyVal.float 0) = true ∧ pyEq y (PyVal.float 0) = true) →
      purgeIfUnused dx (PyVal.float 0) [c, v] = dx) := by
  constructor
  · rintro ⟨x, y, hx, hy, hx0, hy0⟩
    exact purge_pair_none dx (PyVal.float 0) c v hnd hcv
      ((purgeCheck_pair_iff dx (PyVal.float 0) c v).2 ⟨⟨x, hx, hx0⟩, ⟨y, hy, hy0⟩⟩)
  · intro hne
    refine purge_noop dx (PyVal.float 0) [c, v] (fun hchk => hne ?_)
    obtain ⟨⟨x, hx, hx0⟩, ⟨y, hy, hy0⟩⟩ :=
      (purgeCheck_pair_iff dx (PyVal.float 0) c v).1 hchk
    exact ⟨x, y, hx, hy, hx0, hy0⟩

theorem purge3_spec (d2 : PyDict) (hnd2 : (dKeys d2).Nodup) (c v : String)
    (hcvne : c ≠ v)
    (hsel : (c = PHASE1_CURRENT ∧ v = PHASE1_VOLTAGE) ∨
            (c = PHASE2_CURRENT ∧ v = PHASE2_VOLTAGE) ∨
            (c = PHASE3_CURRENT ∧ v = PHASE3_VOLTAGE)) :
    ((∃ x y, dGet d2 c = some x ∧ dGet d2 v = some y ∧
        pyEq x (PyVal.float 0) = true ∧ pyEq y (PyVal.float 0) = true) →
      dGet (purgeIfUnused (purgeIfUnused (purgeIfUnused d2 (PyVal.float 0)
          [PHASE1_CURRENT, PHASE1_VOLTAGE]) (PyVal.float 0)
          [PHASE2_CURRENT, PHASE2_VOLTAGE]) (PyVal.float 0)
          [PHASE3_CURRENT, PHASE3_VOLTAGE]) c = none ∧
      dGet (purgeIfUnused (purgeIfUnused (purgeIfUnused d2 (PyVal.float 0)
          [PHASE1_CURRENT, PHASE1_VOLTAGE]) (PyVal.float 0)
          [PHASE2_CURRENT, PHASE2_VOLTAGE]) (PyVal.float 0)
          [PHASE3_CURRENT, PHASE3_VOLTAGE]) v = none) ∧
    (¬ (∃ x y, dGet d2 c = some x ∧ dGet d2 v = some y ∧
        pyEq x (PyVal.float 0) = true ∧ pyEq y (PyVal.float 0) = true) →
      dGet (purgeIfUnused (purgeIfUnused (purgeIfUnused d2 (PyVal.float 0)
          [PHASE1_CURRENT, PHASE1_VOLTAGE]) (PyVal.float 0)
          [PHASE2_CURRENT, PHASE2_VOLTAGE]) (PyVal.float 0)
          [PHASE3_CURRENT, PHASE3_VOLTAGE]) c = dGet d2 c ∧
      dGet (purgeIfUnused (purgeIfUnused (purgeIfUnused d2 (PyVal.float 0)
          [PHASE1_CURRENT, PHASE1_VOLTAGE]) (PyVal.float 0)
          [PHASE2_CURRENT, PHASE2_VOLTAGE]) (PyVal.float 0)
          [PHASE3_CURRENT, PHASE3_VOLTAGE]) v = dGet d2 v) := by
  rcases hsel with ⟨rfl, rfl⟩ | ⟨rfl, rfl⟩ | ⟨rfl, rfl⟩
  · have hA := purge_pair_cases d2 PHASE1_CURRENT PHASE1_VOLTAGE hnd2 (by decide)
    constructor
    · intro hcond
      obtain ⟨hA1, hA2⟩ := hA.1 hcond
      constructor
      · rw [purge_get_notin _ _ _ _
            (by decide : PHASE1_CURRENT ∉ [PHASE3_CURRENT, PHASE3_VOLTAGE]),
          purge_get_notin _ _ _ _
            (by decide : PHASE1_CURRENT ∉ [PHASE2_CURRENT, PHASE2_VOLTAGE])]
        exact hA1
      · rw [purge_get_notin _ _ _ _
            (by decide : PHASE1_VOLTAGE ∉ [PHASE3_CURRENT, PHASE3_VOLTAGE]),
          purge_get_notin _ _ _ _
            (by decide : PHASE1_VOLTAGE ∉ [PHASE2_CURRENT, PHASE2_VOLTAGE])]
        exact hA2
    · intro hcond
      have hAeq := hA.2 hcond
      constructor
      · rw [purge_get_notin _ _ _ _
            (by decide : PHASE1_CURRENT ∉ [PHASE3_CURRENT, PHASE3_VOLTAGE]),
          purge_get_notin _ _ _ _
            (by decide : PHASE1_CURRENT ∉ [PHASE2_CURRENT, PHASE2_VOLTAGE]), hAeq]
      · rw [purge_get_notin _ _ _ _
            (by decide : PHASE1_VOLTAGE ∉ [PHASE3_CURRENT, PHASE3_VOLTAGE]),
          purge_get_notin _ _ _ _
            (by decide : PHASE1_VOLTAGE ∉ [PHASE2_CURRENT, PHASE2_VOLTAGE]), hAeq]
  · have hgAc : dGet (purgeIfUnused d2 (PyVal.float 0)
        [PHASE1_CURRENT, PHASE1_VOLTAGE]) PHASE2_CURRENT = dGet d2 PHASE2_CURRENT :=
      purge_get_notin _ _ _ _ (by decide)
    have hgAv : dGet (purgeIfUnused d2 (PyVal.float 0)
        [PHASE1_CURRENT, PHASE1_VOLTAGE]) PHASE2_VOLTAGE = dGet d2 PHASE2_VOLTAGE :=
      purge_get_notin _ _ _ _ (by decide)
    have hndA : (dKeys (purgeIfUnused d2 (PyVal.float 0)
        [PHASE1_CURRENT, PHASE1_VOLTAGE])).Nodup := purge_nodup _ _ _ hnd2
    have hB := purge_pair_cases (purgeIfUnused d2 (PyVal.float 0)
      [PHASE1_CURRENT, PHASE1_VOLTAGE]) PHASE2_CURRENT PHASE2_VOLTAGE hndA (by decide)
    rw [hgAc, hgAv] at hB
    constructor
    · intro hcond
      obtain ⟨hB1, hB2⟩ := hB.1 hcond
      constructor
      · rw [purge_get_notin _ _ _ _
            (by decide : PHASE2_CURRENT ∉ [PHASE3_CURRENT, PHASE3_VOLTAGE])]
        exact hB1
      · rw [purge_get_notin _ _ _ _
            (by decide : PHASE2_VOLTAGE ∉ [PHASE3_CURRENT, PHASE3_VOLTAGE])]
        exact hB2
    · intro hcond
      have hBeq := hB.2 hcond
      constructor
      · rw [purge_get_notin _ _ _ _
            (by decide : PHASE2_CURRENT ∉ [PHASE3_CURRENT, PHASE3_VOLTAGE]), hBeq, hgAc]
      · rw [purge_get_notin _ _ _ _
            (by decide : PHASE2_VOLTAGE ∉ [PHASE3_CURRENT, PHASE3_VOLTAGE]), hBeq, hgAv]
  · have hgAc : dGet (purgeIfUnused d2 (PyVal.float 0)
        [PHASE1_CURRENT, PHASE1_VOLTAGE]) PHASE3_CURRENT = dGet d2 PHASE3_CURRENT :=
      purge_get_notin _ _ _ _ (by decide)
    have hgAv : dGet (purgeIfUnused d2 (PyVal.float 0)
        [PHASE1_CURRENT, PHASE1_VOLTAGE]) PHASE3_VOLTAGE = dGet d2 PHASE3_VOLTAGE :=
      purge_get_notin _ _ _ _ (by decide)
    have hgBc : dGet (purgeIfUnused (purgeIfUnused d2 (PyVal.float 0)
        [PHASE1_CURRENT, PHASE1_VOLTAGE]) (PyVal.float 0)
        [PHASE2_CURRENT, PHASE2_VOLTAGE]) PHASE3_CURRENT =
        dGet (purgeIfUnused d2 (PyVal.float 0)
        [PHASE1_CURRENT, PHASE1_VOLTAGE]) PHASE3_CURRENT :=
      purge_get_notin _ _ _ _ (by decide)
    have hgBv : dGet (purgeIfUnused (purgeIfUnused d2 (PyVal.float 0)
        [PHASE1_CURRENT, PHASE1_VOLTAGE]) (PyVal.float 0)
        [PHASE2_CURRENT, PHASE2_VOLTAGE]) PHASE3_VOLTAGE =
        dGet (purgeIfUnused d2 (PyVal.float 0)
        [PHASE1_CURRENT, PHASE1_VOLTAGE]) PHASE3_VOLTAGE :=
      purge_get_notin _ _ _ _ (by decide)
    have hndB : (dKeys (purgeIfUnused (purgeIfUnused d2 (PyVal.float 0)
        [PHASE1_CURRENT, PHASE1_VOLTAGE]) (PyVal.float 0)
        [PHASE2_CURRENT, PHASE2_VOLTAGE])).Nodup :=
      purge_nodup _ _ _ (purge_nodup _ _ _ hnd2)
    have hC := purge_pair_cases (purgeIfUnused (purgeIfUnused d2 (PyVal.float 0)
      [PHASE1_CURRENT, PHASE1_VOLTAGE]) (PyVal.float 0)
      [PHASE2_CURRENT, PHASE2_VOLTAGE]) PHASE3_CURRENT PHASE3_VOLTAGE hndB (by decide)
    rw [hgBc, hgBv, hgAc, hgAv] at hC
    constructor
    · exact fun hcond => hC.1 hcond
    · intro hcond
      have hCeq := hC.2 hcond
      constructor
      · rw [hCeq, hgBc, hgAc]
      · rw [hCeq, hgBv, hgAv]

/-- C7: for each of the three AC phase groups, post-processing removes
both the phase's current and voltage attributes exactly when both are
present and both equal `0.0` under Python equality; if either is absent
or differs from `0.0`, both are left exactly as they were. -/
theorem C7_theorem (d d' : PyDict) (hnd : (dKeys d).Nodup)
    (h : postProcess d = .ok d') (c v : String)
    (hsel : (c = PHASE1_CURRENT ∧ v = PHASE1_VOLTAGE) ∨
            (c = PHASE2_CURRENT ∧ v = PHASE2_VOLTAGE) ∨
            (c = PHASE3_CURRENT ∧ v = PHASE3_VOLTAGE)) :
    ((∃ x y, dGet d c = some x ∧ dGet d v = some y ∧
        pyEq x (PyVal.float 0) = true ∧ pyEq y (PyVal.float 0) = true) →
      dGet d' c = none ∧ dGet d' v = none) ∧
    (¬ (∃ x y, dGet d c = some x ∧ dGet d v = some y ∧
        pyEq x (PyVal.float 0) = true ∧ pyEq y (PyVal.float 0) = true) →
      dGet d' c = dGet d c ∧ dGet d' v = dGet d v) := by
  have hcvne : c ≠ v := by
    rcases hsel with ⟨rfl, rfl⟩ | ⟨rfl, rfl⟩ | ⟨rfl, rfl⟩ <;> decide
  have hTS : (INVERTER_TIMESTAMP_ONLINE ≠ c ∧ INVERTER_TIMESTAMP_UPDATE ≠ c) ∧
      (INVERTER_TIMESTAMP_ONLINE ≠ v ∧ INVERTER_TIMESTAMP_UPDATE ≠ v) := by
    rcases hsel with ⟨rfl, rfl⟩ | ⟨rfl, rfl⟩ | ⟨rfl, rfl⟩ <;>
      exact ⟨⟨by decide, by decide⟩, ⟨by decide, by decide⟩⟩
  rcases postProcess_eq d d' h with ⟨hd, rfl⟩ | ⟨d1, d2, h1, h2, rfl⟩
  · subst hd
    constructor
    · rintro ⟨x, y, hx, _, _, _⟩
      exact Option.noConfusion hx
    · intro _
      exact ⟨rfl, rfl⟩
  · have hndd1 : (dKeys d1).Nodup := fixTimestamp_nodup d d1 _ h1 hnd
    have hnd2 : (dKeys d2).Nodup := fixTimestamp_nodup d1 d2 _ h2 hndd1
    have hc2 : dGet d2 c = dGet d c := by
      rw [fixTimestamp_get_ne d1 d2 _ c h2 hTS.1.2,
        fixTimestamp_get_ne d d1 _ c h1 hTS.1.1]
    have hv2 : dGet d2 v = dGet d v := by
      rw [fixTimestamp_get_ne d1 d2 _ v h2 hTS.2.2,
        fixTimestamp_get_ne d d1 _ v h1 hTS.2.1]
    have hmain := purge3_spec d2 hnd2 c v hcvne hsel
    rw [hc2, hv2] at hmain
    exact hmain

/-- C7 witness: the spec's concrete case, phase-2 current `0.0` and
voltage `0.0` are both removed by post-processing. -/
theorem C7_theorem_witness :
    dGet [(INVERTER_ACPOWER, PyVal.float 3)] PHASE2_CURRENT = none ∧
    dGet [(INVERTER_ACPOWER, PyVal.float 3)] PHASE2_VOLTAGE = none :=
  (C7_theorem
    [(PHASE2_CURRENT, PyVal.float 0), (PHASE2_VOLTAGE, PyVal.float 0),
     (INVERTER_ACPOWER, PyVal.float 3)]
    [(INVERTER_ACPOWER, PyVal.float 3)]
    (by decide) (by rfl) PHASE2_CURRENT PHASE2_VOLTAGE
    (.inr (.inl ⟨rfl, rfl⟩))).1
    ⟨PyVal.float 0, PyVal.float 0, rfl, rfl, rfl, rfl⟩

/-- C1 counterexample: local time 08:00 (480 minutes), state 1 (off),
state subscriber last accepted 5 minutes ago (475), raw daily energy
12.5. The claim as stated forces the delivered value to 0 here (the
last-accepted timestamp is not more than 10 minutes in the past), but
`update_devices` delivers the raw value 12.5. -/
theorem C1_counterexample :
    energyTodayValue [(INVERTER_STATE, PyVal.int 1)]
      (some ⟨some 475, true⟩) 480 (PyVal.float (25/2)) =
      .ok (PyVal.float (25/2)) ∧
    (PyVal.float (25/2)) ≠ PyVal.int 0 := by
  constructor
  · have h5 : ¬ ((475 : ℚ) + 10 < 480) := by norm_num
    show (if pyEq (PyVal.int 1) (PyVal.int 2) && decide (hourOf 480 < 12) then
            Except.ok (PyVal.int 0)
          else if pyEq (PyVal.int 1) (PyVal.int 1) && decide (hourOf 480 < 12) then
            if (475 : ℚ) + 10 < 480 then Except.ok (PyVal.int 0)
            else Except.ok (PyVal.float (25/2))
          else Except.ok (PyVal.float (25/2))) = Except.ok (PyVal.float (25/2))
    have ham : hourOf 480 < 12 := by
      show (Int.floor ((480 : ℚ) / 60)) % 24 < 12
      norm_num
    rw [if_neg (by simp [pyEq]), if_pos (by simp [pyEq, ham]), if_neg h5]
  · intro h
    cases h

/-- C1 as amended: in every dispatch of the daily-energy attribute with
the state attribute present, (a) before local noon with state 2 the
delivered value is 0 regardless of the raw reading; (b) before local
noon with state 1 and a registered state subscriber the delivered value
is 0 exactly when the subscriber's last-accepted timestamp is more than
10 minutes in the past — otherwise (a more recent timestamp, or none
recorded) the raw value is delivered; (c) at or after local noon, or
for any other state value, the raw value is delivered unchanged. The
claim's grace window is the reverse of what the code implements. -/
theorem C1_amended (data : PyDict) (st : PyVal) (stateSub : Option Subscriber)
    (now : ℚ) (raw : PyVal) (hst : dGet data INVERTER_STATE = some st) :
    (hourOf now < 12 → pyEq st (PyVal.int 2) = true →
       energyTodayValue data stateSub now raw = .ok (PyVal.int 0)) ∧
    (hourOf now < 12 → pyEq st (PyVal.int 1) = true →
       ∀ ssub, stateSub = some ssub →
         (∀ m, ssub.measured = some m →
            (m + 10 < now → energyTodayValue data stateSub now raw = .ok (PyVal.int 0)) ∧
            (¬ m + 10 < now → energyTodayValue data stateSub now raw = .ok raw)) ∧
         (ssub.measured = none → energyTodayValue data stateSub now raw = .ok raw)) ∧
    (¬ hourOf now < 12 → energyTodayValue data stateSub now raw = .ok raw) ∧
    (pyEq st (PyVal.int 2) = false → pyEq st (PyVal.int 1) = false →
       energyTodayValue data stateSub now raw = .ok raw) := by
  have hbody : energyTodayValue data stateSub now raw =
      (if pyEq st (PyVal.int 2) && decide (hourOf now < 12) then .ok (PyVal.int 0)
       else if pyEq st (PyVal.int 1) && decide (hourOf now < 12) then
         match stateSub with
         | none => .error "KeyError"
         | some ssub =>
             match ssub.measured with
             | some lus =>
                 if lus + 10 < now then .ok (PyVal.int 0) else .ok raw
             | none => .ok raw
       else .ok raw) := by
    unfold energyTodayValue
    rw [hst]
  refine ⟨?_, ?_, ?_, ?_⟩
  · intro ham h2
    rw [hbody, if_pos (by simp [h2, ham])]
  · intro ham h1
    intro ssub hss
    have h2f : pyEq st (PyVal.int 2) = false := by
      cases st with
      | str s => rfl
      | int n =>
          simp only [pyEq, decide_eq_true_eq] at h1
          simp [pyEq, h1]
      | float q =>
          simp only [pyEq, decide_eq_true_eq] at h1
          simp [pyEq, h1]
    constructor
    · intro m hm
      constructor
      · intro hlt
        rw [hbody, if_neg (by simp [h2f]), if_pos (by simp [h1, ham])]
        simp only [hss, hm]
        exact if_pos hlt
      · intro hge
        rw [hbody, if_neg (by simp [h2f]), if_pos (by simp [h1, ham])]
        simp only [hss, hm]
        exact if_neg hge
    · intro hm
      rw [hbody, if_neg (by simp [h2f]), if_pos (by simp [h1, ham])]
      simp only [hss, hm]
  · intro hpm
    rw [hbody, if_neg (by simp [hpm]), if_neg (by simp [hpm])]
  · intro h2f h1f
    rw [hbody, if_neg (by simp [h2f]), if_neg (by simp [h1f])]

/-- C1 amended witness: at 08:00 with state 2 and raw reading 3.0, the
delivered value is 0. -/
theorem C1_amended_witness :
    energyTodayValue [(INVERTER_STATE, PyVal.int 2)] none 480 (PyVal.float 3) =
      .ok (PyVal.int 0) := by
  have ham : hourOf 480 < 12 := by
    show (Int.floor ((480 : ℚ) / 60)) % 24 < 12
    norm_num
  exact (C1_amended [(INVERTER_STATE, PyVal.int 2)] (PyVal.int 2) none 480
    (PyVal.float 3) rfl).1 ham rfl

/-- Does coercing this optional raw value raise? (Absent values never
raise; they are skipped as omissions.) -/
def rawCoerceFails (t : PyType) (prec : Option Nat) : Option Raw → Bool
  | some raw => (coerce t prec raw).isNone
  | none => false

/-- A schema row whose raw value is present in the payload but not
convertible to the row's declared type. -/
def rowFailed (w : DeviceWapper) (sec : SectionId) (row : SchemaRow) : Bool :=
  match sectionKind sec with
  | .element => rawCoerceFails row.ty row.prec (dGet (sectionElem w sec) row.rawKey)
  | .record =>
      (sectionRecs w sec).any (fun r =>
        decide (r.key = some row.rawKey) && rawCoerceFails row.ty row.prec r.val)

theorem gvfrGo_error (key : String) (t : PyType) (prec : Option Nat) :
    ∀ (recs : List DataRec) (acc : Option PyVal),
      (∃ r ∈ recs, r.key = some key ∧
         ∃ raw, r.val = some raw ∧ coerce t prec raw = none) →
      ∃ e, gvfrGo key t prec recs acc = .error e
  | [], _, h => absurd h (by simp)
  | r :: rs, acc, h => by
    rcases h with ⟨r0, hr0, hk0, raw0, hv0, hc0⟩
    rcases List.mem_cons.1 hr0 with rfl | hr0tail
    · exact ⟨"conversion", by simp [gvfrGo, hk0, hv0, hc0]⟩
    · by_cases hk : r.key = some key
      · rcases hv : r.val with _ | raw
        · have := gvfrGo_error key t prec rs acc ⟨r0, hr0tail, hk0, raw0, hv0, hc0⟩
          simpa [gvfrGo, hk, hv] using this
        · rcases hc : coerce t prec raw with _ | v
          · exact ⟨"conversion", by simp [gvfrGo, hk, hv, hc]⟩
          · have := gvfrGo_error key t prec rs (some v) ⟨r0, hr0tail, hk0, raw0, hv0, hc0⟩
            simpa [gvfrGo, hk, hv, hc] using this
      · have := gvfrGo_error key t prec rs acc ⟨r0, hr0tail, hk0, raw0, hv0, hc0⟩
        simpa [gvfrGo, hk] using this

theorem extractRow_error (w : DeviceWapper) (sec : SectionId) (row : SchemaRow)
    (h : rowFailed w sec row = true) : ∃ e, extractRow w sec row = .error e := by
  unfold rowFailed at h
  unfold extractRow
  rcases hsk : sectionKind sec with _ | _
  · rw [hsk] at h
    rcases hg : dGet (sectionElem w sec) row.rawKey with _ | raw
    · rw [hg] at h
      cases h
    · rw [hg] at h
      refine ⟨"conversion", ?_⟩
      unfold getValue
      simp only [hg, Option.isNone_iff_eq_none.1 h]
  · rw [hsk] at h
    rw [List.any_eq_true] at h
    obtain ⟨r, hr, hcond⟩ := h
    rw [Bool.and_eq_true] at hcond
    obtain ⟨hk, hvf⟩ := hcond
    rcases hv : r.val with _ | raw
    · rw [hv] at hvf
      cases hvf
    · rw [hv] at hvf
      exact gvfrGo_error row.rawKey row.ty row.prec (sectionRecs w sec) none
        ⟨r, hr, of_decide_eq_true hk, raw, hv, Option.isNone_iff_eq_none.1 hvf⟩

theorem collectRows_error (w : DeviceWapper) (sec : SectionId) :
    ∀ (rows : List SchemaRow) (acc : PyDict),
      (∃ row ∈ rows, rowFailed w sec row = true) →
      ∃ e, collectRows w sec rows acc = .error e
  | [], _, h => absurd h (by simp)
  | row :: rows, acc, h => by
    rcases hex : extractRow w sec row with e | ov
    · exact ⟨e, by simp [collectRows, hex]⟩
    · rcases h with ⟨row0, hrow0, hf0⟩
      rcases List.mem_cons.1 hrow0 with rfl | htail
      · obtain ⟨e, he⟩ := extractRow_error w sec row0 hf0
        rw [hex] at he
        cases he
      · rcases ov with _ | v
        · have := collectRows_error w sec rows acc ⟨row0, htail, hf0⟩
          simpa [collectRows, hex] using this
        · have := collectRows_error w sec rows (dSet acc row.attr v) ⟨row0, htail, hf0⟩
          simpa [collectRows, hex] using this

theorem collectSections_error (w : DeviceWapper) :
    ∀ (secs : List SectionId) (acc : PyDict),
      (∃ sec ∈ secs, ∃ row ∈ sectionRows sec, rowFailed w sec row = true) →
      ∃ e, collectSections w secs acc = .error e
  | [], _, h => absurd h (by simp)
  | sec :: secs, acc, h => by
    rcases hcr : collectRows w sec (sectionRows sec) acc with e | acc2
    · exact ⟨e, by simp [collectSections, hcr]⟩
    · rcases h with ⟨sec0, hsec0, hrow⟩
      rcases List.mem_cons.1 hsec0 with rfl | htail
      · obtain ⟨e, he⟩ := collectRows_error w sec0 (sectionRows sec0) acc hrow
        rw [hcr] at he
        cases he
      · have := collectSections_error w secs acc2 ⟨sec0, htail, hrow⟩
        simpa [collectSections, hcr] using this

/-- C2 counterexample: a payload whose `state` field holds the
unconvertible raw string `"notanumber"` while its `sn` field is fine.
The claim says the bad attribute is omitted, the other attributes stay,
and the fetch still succeeds; the code instead aborts the whole payload
with the raised conversion error, and the fetch fails. -/
theorem C2_counterexample :
    collectInverterData
      ⟨[("sn", Raw.str "ABC"), ("state", Raw.str "notanumber")],
       [], [], [], [], []⟩ = .error "conversion" ∧
    fetchInverterData ⟨true, some [("ABC", "dev1")]⟩ "ABC"
      (some ⟨[("sn", Raw.str "ABC"), ("state", Raw.str "notanumber")],
             [], [], [], [], []⟩) = .error "conversion" := by
  constructor
  · decide
  · decide

/-- C2 amended: a raw value that is present but not convertible to its
attribute's declared type aborts the whole payload extraction — the
collect step raises, no measurement set is produced, and the fetch for
that inverter fails instead of succeeding with the attribute omitted. -/
theorem C2_amended (w : DeviceWapper)
    (h : ∃ sec ∈ sectionOrder, ∃ row ∈ sectionRows sec, rowFailed w sec row = true) :
    (∃ e, collectInverterData w = .error e) ∧
    ∀ (lst : List (String × String)) (serial did : String),
      dGet lst serial = some did →
      ∃ e, fetchInverterData ⟨true, some lst⟩ serial (some w) = .error e := by
  obtain ⟨e, he⟩ := collectSections_error w sectionOrder [] h
  have hp : extractPipeline w = .error e := by
    unfold extractPipeline collectInverterData
    simp only [he]
  refine ⟨⟨e, he⟩, ?_⟩
  intro lst serial did hget
  refine ⟨e, ?_⟩
  unfold fetchInverterData
  simp only [hget, hp]
  simp

/-- C2 amended witness: the counterexample payload satisfies the
failing-row hypothesis, and both the collect step and the fetch abort. -/
theorem C2_amended_witness :
    (∃ e, collectInverterData
      ⟨[("sn", Raw.str "XYZ"), ("state", Raw.str "bad")],
       [], [], [], [], []⟩ = .error e) ∧
    (∃ e, fetchInverterData ⟨true, some [("XYZ", "dev9")]⟩ "XYZ"
      (some ⟨[("sn", Raw.str "XYZ"), ("state", Raw.str "bad")],
             [], [], [], [], []⟩) = .error e) := by
  have h := C2_amended
    ⟨[("sn", Raw.str "XYZ"), ("state", Raw.str "bad")], [], [], [], [], []⟩
    (by decide)
  exact ⟨h.1, h.2 [("XYZ", "dev9")] "XYZ" "dev9" (by decide)⟩

/-- C9 counterexample: starting offline, a first login whose credentials
are accepted but whose directory discovery fails performs one discovery
call and leaves the session offline; a second login then re-attempts
authentication and discovery, so the two consecutive login calls
without an intervening logout perform two discovery calls — refuting
"perform discovery at most once". -/
theorem C9_counterexample :
    ((svcLogin ⟨⟨false, none⟩, none, none, []⟩ 0 .accept none).2.2.disc +
     (svcLogin (svcLogin ⟨⟨false, none⟩, none, none, []⟩ 0 .accept none).1 0
        .accept (some [("A", "d1")])).2.2.disc = 2) ∧
    ¬ (2 ≤ 1) := by
  constructor
  · rfl
  · decide

/-- C9 as amended: calling the service login while the session is
already online is a no-op — it returns the online state unchanged with
zero authentication calls and zero discovery calls; consequently, when
the first of two consecutive login calls leaves the session online, the
second performs no portal call at all, so discovery is performed at
most once across the two. When the first call leaves the session
offline (for example, accepted credentials but failed discovery), the
second call re-attempts authentication and discovery. -/
theorem C9_amended :
    (∀ (s : SvcState) (now : ℚ) (r : LoginResp)
       (d : Option (List (String × String))),
       s.api.online = true → svcLogin s now r d = (s, true, ⟨0, 0⟩)) ∧
    (∀ (s : SvcState) (now now2 : ℚ) (r1 r2 : LoginResp)
       (d1 d2 : Option (List (String × String))),
       (svcLogin s now r1 d1).1.api.online = true →
       svcLogin (svcLogin s now r1 d1).1 now2 r2 d2 =
         ((svcLogin s now r1 d1).1, true, ⟨0, 0⟩)) := by
  have h1 : ∀ (s : SvcState) (now : ℚ) (r : LoginResp)
      (d : Option (List (String × String))),
      s.api.online = true → svcLogin s now r d = (s, true, ⟨0, 0⟩) := by
    intro s now r d hon
    unfold svcLogin
    rw [if_pos hon]
  exact ⟨h1, fun s now now2 r1 r2 d1 d2 hon =>
    h1 (svcLogin s now r1 d1).1 now2 r2 d2 hon⟩

/-- C9 amended witness: a concrete online session state is returned
unchanged by a login call, with zero portal calls. -/
theorem C9_amended_witness :
    svcLogin ⟨⟨true, some [("A", "d1")]⟩, some 0, none, []⟩ 5 .accept none =
      (⟨⟨true, some [("A", "d1")]⟩, some 0, none, []⟩, true, ⟨0, 0⟩) :=
  C9_amended.1 ⟨⟨true, some [("A", "d1")]⟩, some 0, none, []⟩ 5 .accept none rfl

/-- C3 counterexample: in a state where the session is online but the
inverter directory is `None`, `async_update` returns normally (outcome
NOK) after zero `schedule_update` calls — the early `return update` at
the missing-directory check skips the scheduling step, refuting
"exactly one schedule call regardless of login or directory state". -/
theorem C3_counterexample :
    asyncUpdate ⟨⟨true, none⟩, none, none, []⟩ 0 ⟨.fail, none, []⟩ =
      .ok (⟨⟨true, none⟩, none, none, []⟩, SCHEDULE_NOK, 0, ⟨0, 0⟩) ∧
    (0 : Nat) ≠ 1 := by
  constructor
  · rfl
  · decide

/-- C3 as amended: every normally returning `async_update` cycle
performs exactly one `schedule_update` call, provided a directory is
present whenever the session is online — which holds in every state the
service's own operations can reach, since a successful login always
installs a directory; in the unreachable online-without-directory state
the cycle returns early with zero schedule calls. -/
theorem C3_amended (s : SvcState) (now : ℚ) (env : CycleEnv)
    (hinv : s.api.online = true → s.api.inverterList ≠ none)
    (s' : SvcState) (u : Int) (n : Nat) (c : Calls)
    (hrun : asyncUpdate s now env = .ok (s', u, n, c)) : n = 1 := by
  obtain ⟨⟨online, invList⟩, logintime, lastUpd, subs⟩ := s
  obtain ⟨r, dr, pl⟩ := env
  cases online with
  | true =>
    rcases invList with _ | inverters
    · exact absurd rfl (hinv rfl)
    · replace hrun : (match updateLoop ⟨r, dr, pl⟩ now (dKeys inverters)
          ⟨⟨true, some inverters⟩, logintime, lastUpd, subs⟩ SCHEDULE_NOK 0 with
        | Except.error e => Except.error e
        | Except.ok (s2, u2, _f) =>
            Except.ok (ageCheck s2 now, u2, 1, (⟨0, 0⟩ : Calls))) =
          Except.ok (s', u, n, c) := hrun
      rcases hloop : updateLoop ⟨r, dr, pl⟩ now (dKeys inverters)
          ⟨⟨true, some inverters⟩, logintime, lastUpd, subs⟩ SCHEDULE_NOK 0
          with e | ⟨s2, u2, f2⟩
      · rw [hloop] at hrun
        cases hrun
      · rw [hloop] at hrun
        cases hrun
        rfl
  | false =>
    cases r with
    | fail =>
      cases hrun
      rfl
    | keyErr =>
      cases hrun
      rfl
    | noAccept =>
      cases hrun
      rfl
    | accept =>
      rcases dr with _ | lst
      · cases hrun
        rfl
      · replace hrun : (match updateLoop ⟨LoginResp.accept, some lst, pl⟩ now
            (dKeys lst) ⟨⟨true, some lst⟩, some now, lastUpd, subs⟩
            SCHEDULE_NOK 0 with
          | Except.error e => Except.error e
          | Except.ok (s2, u2, _f) =>
              Except.ok (ageCheck s2 now, u2, 1, (⟨1, 1⟩ : Calls))) =
            Except.ok (s', u, n, c) := hrun
        rcases hloop : updateLoop ⟨LoginResp.accept, some lst, pl⟩ now
            (dKeys lst) ⟨⟨true, some lst⟩, some now, lastUpd, subs⟩
            SCHEDULE_NOK 0 with e | ⟨s2, u2, f2⟩
        · rw [hloop] at hrun
          cases hrun
        · rw [hloop] at hrun
          cases hrun
          rfl

/-- C3 amended witness: a concrete online state with a directory yields
exactly one schedule call. -/
theorem C3_amended_witness :
    asyncUpdate ⟨⟨true, some []⟩, none, none, []⟩ 0 ⟨.fail, none, []⟩ =
      .ok (⟨⟨true, some []⟩, none, none, []⟩, SCHEDULE_NOK, 1, ⟨0, 0⟩) ∧
    (1 : Nat) = 1 :=
  ⟨rfl, C3_amended ⟨⟨true, some []⟩, none, none, []⟩ 0 ⟨.fail, none, []⟩
    (fun _ h => Option.noConfusion h) ⟨⟨true, some []⟩, none, none, []⟩
    SCHEDULE_NOK 1 ⟨0, 0⟩ rfl⟩

/-- C10: once a fetch in the inverter loop of a cycle returns no data,
the forced logout puts the session offline, so every remaining fetch of
the same cycle also returns no data (from an offline state the loop
adds one failure per remaining serial, first conjunct), and consequently
a later success can never overwrite an earlier failure: whenever at
least one fetch in the run failed, the cycle outcome is
`SCHEDULE_NOK` and the cycle ends offline with a cleared directory
(second conjunct). -/
theorem C10_theorem (env : CycleEnv) (now : ℚ) :
    (∀ (serials : List String) (s : SvcState) (u : Int) (f : Nat),
       s.api.online = false →
       updateLoop env now serials s u f =
         .ok ((if serials = [] then s else svcLogout s),
              (if serials = [] then u else SCHEDULE_NOK),
              f + serials.length)) ∧
    (∀ (serials : List String) (s : SvcState) (u : Int) (f : Nat)
       (s' : SvcState) (u' : Int) (f' : Nat),
       updateLoop env now serials s u f = .ok (s', u', f') → f < f' →
       u' = SCHEDULE_NOK ∧ s'.api.online = false ∧
       s'.api.inverterList = none) := by
  have part1 : ∀ (serials : List String) (s : SvcState) (u : Int) (f : Nat),
      s.api.online = false →
      updateLoop env now serials s u f =
        .ok ((if serials = [] then s else svcLogout s),
             (if serials = [] then u else SCHEDULE_NOK),
             f + serials.length) := by
    intro serials
    induction serials with
    | nil =>
      intro s u f _
      simp [updateLoop]
    | cons serial rest ih =>
      intro s u f hoff
      have hfetch : fetchInverterData s.api serial (dGet env.payloads serial) =
          .ok none := by
        unfold fetchInverterData
        rw [if_neg (by simp [hoff])]
      have hstep : updateLoop env now (serial :: rest) s u f =
          updateLoop env now rest (svcLogout s) SCHEDULE_NOK (f + 1) := by
        conv_lhs => unfold updateLoop
        rw [hfetch]
      rw [hstep, ih (svcLogout s) SCHEDULE_NOK (f + 1) rfl]
      have hlogid : svcLogout (svcLogout s) = svcLogout s := rfl
      rcases rest with _ | ⟨r2, rest2⟩
      · simp
      · simp only [hlogid, List.length_cons, Except.ok.injEq, Prod.mk.injEq,
          if_neg (List.cons_ne_nil _ _)]
        exact ⟨trivial, trivial, by omega⟩
  refine ⟨part1, ?_⟩
  intro serials
  induction serials with
  | nil =>
    intro s u f s' u' f' hrun hf
    cases hrun
    exact absurd hf (lt_irrefl f)
  | cons serial rest ih =>
    intro s u f s' u' f' hrun hf
    unfold updateLoop at hrun
    rcases hfetch : fetchInverterData s.api serial (dGet env.payloads serial)
        with e | od
    · rw [hfetch] at hrun
      cases hrun
    · rcases od with _ | d
      · rw [hfetch] at hrun
        replace hrun : updateLoop env now rest (svcLogout s) SCHEDULE_NOK (f + 1) =
            .ok (s', u', f') := hrun
        rw [part1 rest (svcLogout s) SCHEDULE_NOK (f + 1) rfl] at hrun
        cases hrun
        rcases rest with _ | ⟨r2, rest2⟩
        · exact ⟨rfl, rfl, rfl⟩
        · exact ⟨rfl, rfl, rfl⟩
      · rw [hfetch] at hrun
        replace hrun : (match updateDevices s.subs d (some now) now with
          | Except.error e => (Except.error e : Except String (SvcState × Int × Nat))
          | Except.ok subs2 => updateLoop env now rest
              { s with lastUpdated := some now, subs := subs2 } SCHEDULE_OK f) =
            .ok (s', u', f') := hrun
        rcases hupd : updateDevices s.subs d (some now) now with e | subs2
        · rw [hupd] at hrun
          cases hrun
        · rw [hupd] at hrun
          replace hrun : updateLoop env now rest
              { s with lastUpdated := some now, subs := subs2 } SCHEDULE_OK f =
            .ok (s', u', f') := hrun
          exact ih _ _ _ _ _ _ hrun hf

/-- C10 witness: a two-inverter cycle in which the first fetch delivers
no payload: the loop ends offline with both fetches counted as
failures and outcome `SCHEDULE_NOK`, even though the second inverter is
listed in the directory. -/
theorem C10_theorem_witness :
    updateLoop ⟨.fail, none, [("B", ⟨[], [], [], [], [], []⟩)]⟩ 0 ["A", "B"]
      ⟨⟨true, some [("A", "dA"), ("B", "dB")]⟩, none, none, []⟩ SCHEDULE_NOK 0 =
      .ok (⟨⟨false, none⟩, none, none, []⟩, SCHEDULE_NOK, 2) ∧
    (SCHEDULE_NOK = SCHEDULE_NOK ∧
     (⟨⟨false, none⟩, none, none, []⟩ : SvcState).api.online = false ∧
     (⟨⟨false, none⟩, none, none, []⟩ : SvcState).api.inverterList = none) :=
  ⟨rfl, (C10_theorem ⟨.fail, none, [("B", ⟨[], [], [], [], [], []⟩)]⟩ 0).2
    ["A", "B"] ⟨⟨true, some [("A", "dA"), ("B", "dB")]⟩, none, none, []⟩
    SCHEDULE_NOK 0 ⟨⟨false, none⟩, none, none, []⟩ SCHEDULE_NOK 2 rfl
    (by decide)⟩

/-- A payload whose extraction pipeline succeeds and yields a
measurement set carrying the serial attribute and the state attribute —
the shape `update_devices` needs in order not to raise. -/
def dispatchReady (w : DeviceWapper) : Bool :=
  match extractPipeline w with
  | .error _ => false
  | .ok d => (dGet d INVERTER_SERIAL).isSome && decide (INVERTER_STATE ∈ dKeys d)

theorem dGet_isSome_dSet {α : Type} (d : List (String × α)) (k : String) (v : α)
    (hk : (dGet d k).isSome = true) (k' : String) :
    (dGet (dSet d k v) k').isSome = (dGet d k').isSome := by
  rw [dGet_dSet]
  by_cases he : k = k'
  · subst he
    rw [if_pos rfl]
    simp [hk]
  · rw [if_neg he]

theorem energyTodayValue_ok (data : PyDict) (ssub : Subscriber) (now : ℚ)
    (raw : PyVal) (st : PyVal) (hst : dGet data INVERTER_STATE = some st) :
    ∃ v, energyTodayValue data (some ssub) now raw = .ok v := by
  unfold energyTodayValue
  rw [hst]
  show ∃ v, (if (pyEq st (PyVal.int 2) && decide (hourOf now < 12)) = true then
      Except.ok (PyVal.int 0)
    else if (pyEq st (PyVal.int 1) && decide (hourOf now < 12)) = true then
      match ssub.measured with
      | some lus =>
          if lus + 10 < now then Except.ok (PyVal.int 0) else Except.ok raw
      | none => Except.ok raw
    else Except.ok raw) = Except.ok v
  by_cases h2 : (pyEq st (PyVal.int 2) && decide (hourOf now < 12)) = true
  · rw [if_pos h2]
    exact ⟨PyVal.int 0, rfl⟩
  · rw [if_neg h2]
    by_cases h1 : (pyEq st (PyVal.int 1) && decide (hourOf now < 12)) = true
    · rw [if_pos h1]
      rcases hm : ssub.measured with _ | m
      · exact ⟨raw, rfl⟩
      · by_cases hlt : m + 10 < now
        · exact ⟨PyVal.int 0, by
            show (if m + 10 < now then Except.ok (PyVal.int 0)
              else Except.ok raw) = Except.ok (PyVal.int 0)
            rw [if_pos hlt]⟩
        · exact ⟨raw, by
            show (if m + 10 < now then Except.ok (PyVal.int 0)
              else Except.ok raw) = Except.ok raw
            rw [if_neg hlt]⟩
    · rw [if_neg h1]
      exact ⟨raw, rfl⟩

theorem updateDevicesAttrs_ok (data : PyDict) (lastUpd : Option ℚ) (now : ℚ)
    (hstate : ∃ stv, dGet data INVERTER_STATE = some stv) :
    ∀ (attrs : List String) (tab : List (String × Subscriber)),
      (∀ a ∈ attrs, ∃ v, dGet data a = some v) →
      ((dGet tab INVERTER_ENERGY_TODAY).isSome = true →
        (dGet tab INVERTER_STATE).isSome = true) →
      ∃ tab2, updateDevicesAttrs data lastUpd now attrs tab = .ok tab2 ∧
        ∀ k, (dGet tab2 k).isSome = (dGet tab k).isSome
  | [], tab, _, _ => ⟨tab, rfl, fun _ => rfl⟩
  | attr :: rest, tab, hattrs, hes => by
    rcases hsub : dGet tab attr with _ | sub
    · obtain ⟨tab2, hok, hpres⟩ := updateDevicesAttrs_ok data lastUpd now hstate
        rest tab (fun a ha => hattrs a (by simp [ha])) hes
      refine ⟨tab2, ?_, hpres⟩
      simp only [updateDevicesAttrs, hsub]
      exact hok
    · obtain ⟨rawv, hraw⟩ := hattrs attr (by simp)
      have hval : ∃ value, (if attr = INVERTER_ENERGY_TODAY then
          energyTodayValue data (dGet tab INVERTER_STATE) now rawv
        else .ok rawv) = .ok value := by
        by_cases hen : attr = INVERTER_ENERGY_TODAY
        · rw [if_pos hen]
          have hensub : (dGet tab INVERTER_ENERGY_TODAY).isSome = true := by
            rw [← hen, hsub]
            rfl
          have hst2 := hes hensub
          rcases hss : dGet tab INVERTER_STATE with _ | ssub
          · rw [hss] at hst2
            cases hst2
          · obtain ⟨stv, hstv⟩ := hstate
            exact energyTodayValue_ok data ssub now rawv stv hstv
        · rw [if_neg hen]
          exact ⟨rawv, rfl⟩
      obtain ⟨value, hvalue⟩ := hval
      have hknown : (dGet tab attr).isSome = true := by
        rw [hsub]
        rfl
      obtain ⟨tab2, hok, hpres⟩ := updateDevicesAttrs_ok data lastUpd now hstate
        rest (dSet tab attr (dataUpdated sub lastUpd))
        (fun a ha => hattrs a (by simp [ha]))
        (by
          rw [dGet_isSome_dSet tab attr _ hknown,
            dGet_isSome_dSet tab attr _ hknown]
          exact hes)
      refine ⟨tab2, ?_,
        fun k => (hpres k).trans (dGet_isSome_dSet tab attr _ hknown k)⟩
      simp only [updateDevicesAttrs, hsub, hraw, hvalue]
      exact hok

theorem updateDevices_ok (subs : Subs) (data : PyDict) (lastUpd : Option ℚ)
    (now : ℚ)
    (hsn : ∃ sv, dGet data INVERTER_SERIAL = some sv)
    (hstate : INVERTER_STATE ∈ dKeys data)
    (hsubs : ∀ serial tab, dGet subs serial = some tab →
      (dGet tab INVERTER_ENERGY_TODAY).isSome = true →
      (dGet tab INVERTER_STATE).isSome = true) :
    ∃ subs2, updateDevices subs data lastUpd now = .ok subs2 ∧
      ∀ serial tab2, dGet subs2 serial = some tab2 →
        (dGet tab2 INVERTER_ENERGY_TODAY).isSome = true →
        (dGet tab2 INVERTER_STATE).isSome = true := by
  obtain ⟨sv, hsv⟩ := hsn
  cases sv with
  | str serial =>
    rcases hget : dGet subs serial with _ | tab
    · refine ⟨subs, ?_, hsubs⟩
      simp only [updateDevices, hsv, hget]
    · have hkeys : ginlongKeys data =
          .ok (INVERTER_STATE :: (dKeys data).erase INVERTER_STATE) := by
        unfold ginlongKeys
        rw [if_pos hstate]
      have hattrs : ∀ a ∈ INVERTER_STATE :: (dKeys data).erase INVERTER_STATE,
          ∃ v, dGet data a = some v := by
        intro a ha
        rcases List.mem_cons.1 ha with rfl | hmem
        · exact dGet_isSome_of_mem data _ hstate
        · exact dGet_isSome_of_mem data a (List.mem_of_mem_erase hmem)
      have hstv : ∃ stv, dGet data INVERTER_STATE = some stv :=
        dGet_isSome_of_mem data _ hstate
      obtain ⟨tab2, hok, hpres⟩ := updateDevicesAttrs_ok data lastUpd now hstv
        (INVERTER_STATE :: (dKeys data).erase INVERTER_STATE) tab hattrs
        (hsubs serial tab hget)
      refine ⟨dSet subs serial tab2, ?_, ?_⟩
      · simp only [updateDevices, hsv, hget, hkeys, hok]
      · intro serial' tab' hget' hen
        rw [dGet_dSet] at hget'
        by_cases hse : serial = serial'
        · rw [if_pos hse] at hget'
          cases hget'
          rw [hpres]
          exact hsubs serial tab hget (by rw [← hpres]; exact hen)
        · rw [if_neg hse] at hget'
          exact hsubs serial' tab' hget' hen
  | int n =>
    refine ⟨subs, ?_, hsubs⟩
    simp only [updateDevices, hsv]
  | float q =>
    refine ⟨subs, ?_, hsubs⟩
    simp only [updateDevices, hsv]

theorem fetchInverterData_ok (api : ApiState) (serial : String)
    (pl : List (String × DeviceWapper))
    (hpay : ∀ pr ∈ pl, dispatchReady pr.2 = true) :
    (∃ d, fetchInverterData api serial (dGet pl serial) = .ok (some d) ∧
       (∃ sv, dGet d INVERTER_SERIAL = some sv) ∧ INVERTER_STATE ∈ dKeys d) ∨
    fetchInverterData api serial (dGet pl serial) = .ok none := by
  by_cases hon : api.online = true
  · rcases hl : api.inverterList with _ | lst
    · exact .inr (by simp [fetchInverterData, hon, hl])
    · rcases hd : dGet lst serial with _ | did
      · exact .inr (by simp [fetchInverterData, hon, hl, hd])
      · rcases hp : dGet pl serial with _ | w
        · exact .inr (by simp [fetchInverterData, hon, hl, hd, hp])
        · have hw : dispatchReady w = true :=
            hpay (serial, w) (mem_of_dGet_eq_some pl serial w hp)
          unfold dispatchReady at hw
          rcases hpipe : extractPipeline w with e | d
          · rw [hpipe] at hw
            cases hw
          · simp only [hpipe] at hw
            rw [Bool.and_eq_true] at hw
            refine .inl ⟨d, by simp [fetchInverterData, hon, hl, hd, hp, hpipe],
              ?_, of_decide_eq_true hw.2⟩
            rcases hg : dGet d INVERTER_SERIAL with _ | sv
            · rw [hg] at hw
              simp at hw
            · exact ⟨sv, rfl⟩
  · exact .inr (by simp [fetchInverterData, hon])

theorem updateLoop_ok (env : CycleEnv) (now : ℚ)
    (hpay : ∀ pr ∈ env.payloads, dispatchReady pr.2 = true) :
    ∀ (serials : List String) (s : SvcState) (u : Int) (f : Nat),
      (u = SCHEDULE_OK ∨ u = SCHEDULE_NOK) →
      (∀ serial tab, dGet s.subs serial = some tab →
        (dGet tab INVERTER_ENERGY_TODAY).isSome = true →
        (dGet tab INVERTER_STATE).isSome = true) →
      ∃ s' u' f', updateLoop env now serials s u f = .ok (s', u', f') ∧
        (u' = SCHEDULE_OK ∨ u' = SCHEDULE_NOK)
  | [], s, u, f, hu, _ => ⟨s, u, f, rfl, hu⟩
  | serial :: rest, s, u, f, hu, hsubs => by
    rcases fetchInverterData_ok s.api serial env.payloads hpay with
      ⟨d, hfetch, hsn, hstate⟩ | hfetch
    · obtain ⟨subs2, hupd, hinv2⟩ :=
        updateDevices_ok s.subs d (some now) now hsn hstate hsubs
      obtain ⟨s', u', f', hloop, hu'⟩ := updateLoop_ok env now hpay rest
        { s with lastUpdated := some now, subs := subs2 } SCHEDULE_OK f
        (.inl rfl) hinv2
      refine ⟨s', u', f', ?_, hu'⟩
      simp only [updateLoop, hfetch, hupd]
      exact hloop
    · obtain ⟨s', u', f', hloop, hu'⟩ := updateLoop_ok env now hpay rest
        (svcLogout s) SCHEDULE_NOK (f + 1) (.inr rfl) hsubs
      refine ⟨s', u', f', ?_, hu'⟩
      simp only [updateLoop, hfetch]
      exact hloop

/-- C4 counterexample: a successfully fetched measurement set that
lacks the state attribute (the payload has `sn` but no `state` field)
is dispatched for a subscribed serial; `keys()` raises `ValueError`
during enumeration and the error escapes `async_update` — the cycle
neither returns normally nor yields an outcome. -/
theorem C4_counterexample :
    asyncUpdate
      ⟨⟨true, some [("S1", "d1")]⟩, none, none,
       [("S1", [(INVERTER_ACPOWER, ⟨none, true⟩)])]⟩ 0
      ⟨.fail, none, [("S1", ⟨[("sn", Raw.str "S1")], [], [], [], [], []⟩)]⟩ =
      .error "ValueError" := by
  decide

/-- C4 as amended: no error escapes the cycle boundary provided every
delivered payload extracts cleanly (no coercion failure) into a set
carrying the serial and state attributes, and a state subscriber
accompanies every daily-energy subscriber; under those conditions
`async_update` returns normally and yields exactly one outcome in
{success, failure}. Without them the boundary is not exception-safe:
a set lacking the state attribute (see the counterexample), a set
lacking the serial attribute, a coercion failure, or a daily-energy
subscriber without a state subscriber each raises out of the cycle. -/
theorem C4_amended (s : SvcState) (now : ℚ) (env : CycleEnv)
    (hsubs : ∀ serial tab, dGet s.subs serial = some tab →
      (dGet tab INVERTER_ENERGY_TODAY).isSome = true →
      (dGet tab INVERTER_STATE).isSome = true)
    (hpay : ∀ pr ∈ env.payloads, dispatchReady pr.2 = true) :
    ∃ s' u n c, asyncUpdate s now env = .ok (s', u, n, c) ∧
      (u = SCHEDULE_OK ∨ u = SCHEDULE_NOK) := by
  obtain ⟨⟨online, invList⟩, logintime, lastUpd, subs⟩ := s
  obtain ⟨r, dr, pl⟩ := env
  cases online with
  | true =>
    rcases invList with _ | inverters
    · exact ⟨⟨⟨true, none⟩, logintime, lastUpd, subs⟩, SCHEDULE_NOK, 0, ⟨0, 0⟩,
        rfl, .inr rfl⟩
    · obtain ⟨s', u', f', hloop, hu'⟩ := updateLoop_ok ⟨r, dr, pl⟩ now hpay
        (dKeys inverters) ⟨⟨true, some inverters⟩, logintime, lastUpd, subs⟩
        SCHEDULE_NOK 0 (.inr rfl) hsubs
      refine ⟨ageCheck s' now, u', 1, ⟨0, 0⟩, ?_, hu'⟩
      show (match updateLoop ⟨r, dr, pl⟩ now (dKeys inverters)
          ⟨⟨true, some inverters⟩, logintime, lastUpd, subs⟩ SCHEDULE_NOK 0 with
        | Except.error e => Except.error e
        | Except.ok (s2, u2, _f) =>
            Except.ok (ageCheck s2 now, u2, 1, (⟨0, 0⟩ : Calls))) =
          Except.ok (ageCheck s' now, u', 1, ⟨0, 0⟩)
      rw [hloop]
  | false =>
    cases r with
    | fail => exact ⟨_, SCHEDULE_NOK, 1, ⟨1, 0⟩, rfl, .inr rfl⟩
    | keyErr => exact ⟨_, SCHEDULE_NOK, 1, ⟨1, 0⟩, rfl, .inr rfl⟩
    | noAccept => exact ⟨_, SCHEDULE_NOK, 1, ⟨1, 0⟩, rfl, .inr rfl⟩
    | accept =>
      rcases dr with _ | lst
      · exact ⟨_, SCHEDULE_NOK, 1, ⟨1, 1⟩, rfl, .inr rfl⟩
      · obtain ⟨s', u', f', hloop, hu'⟩ := updateLoop_ok
          ⟨LoginResp.accept, some lst, pl⟩ now hpay (dKeys lst)
          ⟨⟨true, some lst⟩, some now, lastUpd, subs⟩ SCHEDULE_NOK 0
          (.inr rfl) hsubs
        refine ⟨ageCheck s' now, u', 1, ⟨1, 1⟩, ?_, hu'⟩
        show (match updateLoop ⟨LoginResp.accept, some lst, pl⟩ now (dKeys lst)
            ⟨⟨true, some lst⟩, some now, lastUpd, subs⟩ SCHEDULE_NOK 0 with
          | Except.error e => Except.error e
          | Except.ok (s2, u2, _f) =>
              Except.ok (ageCheck s2 now, u2, 1, (⟨1, 1⟩ : Calls))) =
            Except.ok (ageCheck s' now, u', 1, ⟨1, 1⟩)
        rw [hloop]

/-- C4 amended witness: a concrete cycle over one inverter whose
payload carries both `sn` and `state` returns normally with an outcome
in {success, failure}. -/
theorem C4_amended_witness :
    ∃ s' u n c, asyncUpdate ⟨⟨true, some [("S1", "d1")]⟩, none, none, []⟩ 0
      ⟨.fail, none,
       [("S1", ⟨[("sn", Raw.str "S1"), ("state", Raw.int 2)], [], [], [], [], []⟩)]⟩ =
      .ok (s', u, n, c) ∧ (u = SCHEDULE_OK ∨ u = SCHEDULE_NOK) :=
  C4_amended ⟨⟨true, some [("S1", "d1")]⟩, none, none, []⟩ 0
    ⟨.fail, none,
     [("S1", ⟨[("sn", Raw.str "S1"), ("state", Raw.int 2)], [], [], [], [], []⟩)]⟩
    (fun serial tab h => Option.noConfusion h) (by decide)
